import Mathlib

/-!
Verification of the deepblue-CMC-chatbot guidance core.

Shallow embedding of the Python sources:
  app/core/guidance_engine.py, app/core/medical_schema.py,
  app/core/llm_prompt.py, app/core/llm_client.py,
  app/chatbot/chatbot_routes.py.

Python strings are modelled as `List Char`; the Python string primitives
used by the code (`lower`, `strip`, `split`, `replace(" ", "")`,
substring `in`, `split(sep)`) are defined below with their Python
semantics over ASCII text.
-/

/-- Python strings are modelled as lists of characters. -/
abbrev Str := List Char

/-- Python whitespace, as used by `str.strip()` and no-argument
`str.split()`: space, tab, newline, carriage return, vertical tab,
form feed. -/
def pyIsSpace (c : Char) : Bool :=
  c.toNat = 32 || c.toNat = 9 || c.toNat = 10 || c.toNat = 13 ||
  c.toNat = 11 || c.toNat = 12

/-- ASCII lowercasing of one character, the effect of Python
`str.lower()` on the ASCII text this code base handles. -/
def pyToLower (c : Char) : Char :=
  if 65 ≤ c.toNat ∧ c.toNat ≤ 90 then Char.ofNat (c.toNat + 32) else c

/-- Python `s.lower()`. -/
def pyLower (s : Str) : Str := s.map pyToLower

/-- Python `s.strip()`: remove leading and trailing whitespace. -/
def pyStrip (s : Str) : Str :=
  (((s.dropWhile pyIsSpace).reverse.dropWhile pyIsSpace)).reverse

/-- Python `s.replace(" ", "")`: remove every space character
(only U+0020, not other whitespace). -/
def stripSpaces (s : Str) : Str := s.filter (fun c => !(c.toNat = 32))

/-- Python no-argument `s.split()`: split on runs of whitespace,
dropping empty pieces. -/
def pySplitWS : Str → List Str
  | [] => []
  | [c] => if pyIsSpace c then [] else [[c]]
  | c :: d :: rest =>
    if pyIsSpace c then pySplitWS (d :: rest)
    else
      match pySplitWS (d :: rest) with
      | [] => [[c]]
      | p :: ps => if pyIsSpace d then [c] :: p :: ps else (c :: p) :: ps

/-- Python `sep.join(parts)`. -/
def joinWith (sep : Str) : List Str → Str
  | [] => []
  | [x] => x
  | x :: y :: ys => x ++ sep ++ joinWith sep (y :: ys)

/-- Python `" ".join(parts)`. -/
def joinSpace (parts : List Str) : Str := joinWith [' '] parts

/-- Python substring test `needle in hay`. -/
def containsB (hay needle : Str) : Bool := decide (needle <:+: hay)

/-- The complaint normalization of `match_symptoms`
(guidance_engine.py line 42):
`" ".join(complaint.lower().strip().split())`. -/
def normalizeComplaint (s : Str) : Str :=
  joinSpace (pySplitWS (pyStrip (pyLower s)))

/-- Locate the first occurrence of `sep` in a string: returns the part
before the occurrence and the part after it, or `none` when `sep` does
not occur.  Helper for Python `s.split(sep)`. -/
def breakOn (sep : Str) : Str → Option (Str × Str)
  | [] => none
  | c :: rest =>
    if sep.isPrefixOf (c :: rest) then some ([], (c :: rest).drop sep.length)
    else
      match breakOn sep rest with
      | none => none
      | some (pre, post) => some (c :: pre, post)

/-- Fuelled worker for Python `s.split(sep)` (every separator named in
the sources is non-empty, so the fuel `s.length + 1` always suffices). -/
def pySplitOnF : Nat → Str → Str → List Str
  | 0, _, l => [l]
  | fuel + 1, sep, l =>
    match breakOn sep l with
    | none => [l]
    | some (pre, post) => pre :: pySplitOnF fuel sep post

/-- Python `s.split(sep)` for a non-empty separator `sep`. -/
def pySplitOn (sep l : Str) : List Str := pySplitOnF (l.length + 1) sep l

/-- Lookup in a Python dict modelled as an insertion-ordered
association list (Python dict keys are unique; lookup returns the
first binding). -/
def lookupStr {α : Type} (l : List (Str × α)) (k : Str) : Option α :=
  (l.find? (fun p => decide (p.1 = k))).map (·.2)

/-- Python truthiness of an optional string (`None` and `""` are
falsy). -/
def pyFalsyOptStr : Option Str → Bool
  | none => true
  | some [] => true
  | some (_ :: _) => false

/-- Python `x or default` for an optional string. -/
def pyOrElse (o : Option Str) (d : Str) : Str :=
  if pyFalsyOptStr o then d else o.getD d

/-! ## Rule table data model (guidance_rules.json, §app/core/guidance_engine.py)

JSON dictionaries are modelled as structures whose fields are `Option`s:
`none` models an absent key, matching the `.get(key, default)` accesses
in the source. -/

/-- One symptom entry of the rule table. -/
structure SymptomRule where
  keywords : Option (List Str) := none
  follow_up_questions : Option (List Str) := none
  urgency_rules : Option (List (Str × Str)) := none
  analysis_hints : Option Str := none
  suggested_advice : Option Str := none
deriving DecidableEq

/-- The loaded guidance rule table. -/
structure GuidanceData where
  symptoms : Option (List (Str × SymptomRule)) := none
  emergency_keywords : Option (List Str) := none
  disclaimer : Option Str := none
deriving DecidableEq

/-- The aggregated guidance bundle built by `build_guidance_bundle`. -/
structure GuidanceBundle where
  matched_symptoms : List Str
  follow_up_questions : List Str
  urgency_rules : List (Str × Str)
  analysis_hints : List Str
  suggested_advice : List Str
  emergency_keywords : List Str
  disclaimer : Str
deriving DecidableEq

/-- The per-keyword test of `match_symptoms` (guidance_engine.py lines
47-71).  The loop body appends the symptom and breaks on the first
passing strategy, so the four ordered passes amount to a disjunction:
pass 1 exact equality, pass 2 keyword-in-complaint, pass 3
complaint-in-keyword, pass 4 space-stripped containment in either
direction. -/
def keywordMatches (complaintNorm keyword : Str) : Bool :=
  let k := pyStrip (pyLower keyword)
  decide (k = complaintNorm) ||
  containsB complaintNorm k ||
  containsB k complaintNorm ||
  (containsB (stripSpaces complaintNorm) (stripSpaces k) ||
   containsB (stripSpaces k) (stripSpaces complaintNorm))

/-- Embeds `match_symptoms` (guidance_engine.py lines 33-73).  A symptom is
appended at most once (the keyword loop breaks on first success), so
the result is the ordered filter of the symptom table. -/
def match_symptoms (complaint : Str) (symptoms_data : List (Str × SymptomRule)) : List Str :=
  if complaint = [] then []
  else
    let complaint_normalized := normalizeComplaint complaint
    (symptoms_data.filter
      (fun p => (p.2.keywords.getD []).any (keywordMatches complaint_normalized))).map (·.1)

/-- One step of the urgency-rule collection loop (guidance_engine.py
lines 119-122): `combined_urgency.setdefault(level, []).append(rule)`
in dict insertion order. -/
def addUrgency (acc : List (Str × List Str)) (level rule : Str) : List (Str × List Str) :=
  if acc.any (fun p => decide (p.1 = level)) then
    acc.map (fun p => if p.1 = level then (p.1, p.2 ++ [rule]) else p)
  else acc ++ [(level, [rule])]

/-- Append-if-new, the dedup used for follow-up questions
(guidance_engine.py lines 113-115). -/
def dedupAppend (xs : List Str) (x : Str) : List Str :=
  if x ∈ xs then xs else xs ++ [x]

/-- Mutable state of the symptom loop of `build_guidance_bundle`. -/
structure BuildSt where
  fuq : List Str
  comb : List (Str × List Str)
  hints : List Str
  advice : List Str
deriving DecidableEq

/-- Body of the `for symptom_name in matched_symptoms` loop
(guidance_engine.py lines 105-131). -/
def processSymptom (symptoms_data : List (Str × SymptomRule)) (st : BuildSt) (name : Str) : BuildSt :=
  match lookupStr symptoms_data name with
  | none => st
  | some sd =>
    let fuq := (sd.follow_up_questions.getD []).foldl dedupAppend st.fuq
    let comb := (sd.urgency_rules.getD []).foldl (fun acc lr => addUrgency acc lr.1 lr.2) st.comb
    let h := sd.analysis_hints.getD []
    let hints := if h ≠ [] ∧ h ∉ st.hints then st.hints ++ [h] else st.hints
    let a := sd.suggested_advice.getD []
    let advice := if a ≠ [] ∧ a ∉ st.advice then st.advice ++ [a] else st.advice
    ⟨fuq, comb, hints, advice⟩

/-- The flattening of one urgency level (guidance_engine.py lines
134-138): `" OR ".join(rules) if len(rules) > 1 else rules[0]`.  Every
value in `combined_urgency` is non-empty by construction, so the
`headD []` default is unreachable. -/
def flattenRules (rules : List Str) : Str :=
  if rules.length > 1 then joinWith (" OR ".data) rules else rules.headD []

/-- Embeds `build_guidance_bundle` (guidance_engine.py lines 76-143). -/
def build_guidance_bundle (matched_symptoms : List Str) (g : GuidanceData) : GuidanceBundle :=
  let symptoms_data := g.symptoms.getD []
  let bundle0 : GuidanceBundle :=
    { matched_symptoms := matched_symptoms
      follow_up_questions := []
      urgency_rules := []
      analysis_hints := []
      suggested_advice := []
      emergency_keywords := g.emergency_keywords.getD []
      disclaimer := g.disclaimer.getD [] }
  if matched_symptoms = [] then bundle0
  else
    let st := matched_symptoms.foldl (processSymptom symptoms_data) ⟨[], [], [], []⟩
    { bundle0 with
      follow_up_questions := st.fuq
      urgency_rules := st.comb.map (fun p => (p.1, flattenRules p.2))
      analysis_hints := st.hints
      suggested_advice := st.advice }

/-- Outcome of `load_guidance_rules()` (guidance_engine.py lines
11-30): either the parsed rule table, or any of the raised exceptions
(missing file, invalid JSON, other failure) — `get_guidance` treats
all of them alike through its blanket `except`. -/
inductive LoadResult where
  | ok (g : GuidanceData)
  | failure
deriving DecidableEq

/-- The guidance input that `get_guidance` reads from the schema dict:
`schema.get("current_complaint", "")`.  A schema built from the
template always carries the key, possibly with value `None`; both
`None` and a missing key make `match_symptoms` return `[]`, so they
are conflated into `none`. -/
structure SchemaForGuidance where
  current_complaint : Option Str
deriving DecidableEq

/-- The empty bundle returned by the `except` arm of `get_guidance`
(guidance_engine.py lines 171-181). -/
def errorBundle : GuidanceBundle :=
  { matched_symptoms := []
    follow_up_questions := []
    urgency_rules := []
    analysis_hints := []
    suggested_advice := []
    emergency_keywords := []
    disclaimer := "Error loading guidance rules.".data }

/-- Embeds `get_guidance` (guidance_engine.py lines 146-181).  The body calls
`load_guidance_rules()` exactly once on every invocation; the second
component counts how many loads of the rules source the call performs.
`fs` is the state of the rules file at call time. -/
def get_guidance (fs : LoadResult) (schema : SchemaForGuidance) : GuidanceBundle × Nat :=
  match fs with
  | .failure => (errorBundle, 1)
  | .ok g =>
    let current_complaint := schema.current_complaint.getD []
    let matched := match_symptoms current_complaint (g.symptoms.getD [])
    (build_guidance_bundle matched g, 1)

/-! ## Medical-history parsing (app/core/medical_schema.py) -/

/-- The literal negations treated as "no history" when they are the
whole (normalized) answer (medical_schema.py line 45). -/
def negationsWhole : List Str :=
  [("none".data), ("no".data), ("nothing".data), ("n/a".data)]

/-- The negation tokens dropped from the split items
(medical_schema.py line 59) — note `"n/a"` is absent here. -/
def negationsToken : List Str :=
  [("none".data), ("no".data), ("nothing".data)]

/-- The `for separator in [...]: ... break / else:` loop of
`parse_medical_history` (medical_schema.py lines 50-56): split on the
first separator (in priority order) that occurs anywhere in the text,
stripping each piece; no separator means a single item. -/
def chooseSplit : List Str → Str → List Str
  | [], h => [h]
  | sep :: seps, h =>
    if containsB h sep then (pySplitOn sep h).map pyStrip else chooseSplit seps h

/-- Embeds `parse_medical_history` (medical_schema.py lines 38-59).
`normalize_value` is `value.lower().strip()` (lines 31-35). -/
def parse_medical_history (history_text : Str) : List Str :=
  if history_text = [] then []
  else
    let h := pyStrip (pyLower history_text)
    if h ∈ negationsWhole then []
    else
      let items := chooseSplit [(",".data), (";".data), ("and".data), ("&".data)] h
      items.filter (fun i => decide (i ≠ []) && decide (i ∉ negationsToken))

/-! ## Prompt composition (app/core/llm_prompt.py) -/

/-- The fields of the medical schema dict read by
`build_context_prompt` (llm_prompt.py lines 48-53).  Schemas built
from `MEDICAL_SCHEMA_TEMPLATE` always contain these keys, so the
`.get` defaults of lines 49-51 never fire; an unset field holds
Python `None`, modelled as `none`. -/
structure Demographics where
  age : Option Int
  gender : Option Str
deriving DecidableEq

/-- The medical schema as consumed by the prompt composer (fields the
composer never reads are omitted). -/
structure MedicalSchema where
  demographics : Demographics
  medical_history : List Str
  current_complaint : Option Str
  pregnancy_status : Option Str
deriving DecidableEq

/-- Rendering of an optional integer inside the f-string: Python
`f"{x}"` prints `None` for `None`. -/
def renderOptInt : Option Int → Str
  | some n => (toString n).data
  | none => ("None".data)

/-- Rendering of an optional string inside the f-string. -/
def renderOptStr : Option Str → Str
  | some s => s
  | none => ("None".data)

/-- Embeds `build_system_prompt` (llm_prompt.py lines 6-41), a fixed literal. -/
def build_system_prompt : Str :=
  ("You are a medical guidance assistant. You are NOT a doctor and do NOT diagnose.\n\nYour role:\n- Ask follow-up questions before giving advice\n- Use provided guidance as suggestions, not rules\n- DO NOT contradict urgency classifications\n- Be concise and helpful\n- Always ask clarifying questions first, then provide guidance\n\nResponse format: You MUST respond with valid JSON in one of these formats:\n\n1. To ask a follow-up question:\n\x7b\n  \"type\": \"question\",\n  \"text\": \"What is your temperature?\",\n  \"expected_format\": \"Eg: 101°F\"\n\x7d\n\n2. To provide analysis and guidance:\n\x7b\n  \"type\": \"analysis\", \n  \"summary\": \"Based on your symptoms...\",\n  \"urgency\": \"self_care|doctor_visit|emergency\",\n  \"advice\": [\"Rest and stay hydrated\", \"Monitor symptoms\"]\n\x7d\n\n3. To offer next steps:\n\x7b\n  \"type\": \"decision\",\n  \"text\": \"Would you like a summary report or continue chatting?\",\n  \"options\": [\"Generate report\", \"Continue\"]\n\x7d\n\nAlways respond with valid JSON only.".data)

/-- Embeds `build_context_prompt` (llm_prompt.py lines 44-100): the f-string
of lines 63-98 rendered over the extracted schema and guidance
fields. -/
def build_context_prompt (s : MedicalSchema) (g : GuidanceBundle) (user_message : Str) : Str :=
  ("\nPATIENT CONTEXT:\n- Age: ".data) ++ renderOptInt s.demographics.age ++
  ("\n- Gender: ".data) ++ renderOptStr s.demographics.gender ++
  ("\n- Current complaint: ".data) ++ renderOptStr s.current_complaint ++
  ("\n- Medical history: ".data) ++
    (if s.medical_history ≠ [] then joinWith (", ".data) s.medical_history
     else ("none".data)) ++
  ("\n- Pregnancy status: ".data) ++
    pyOrElse s.pregnancy_status ("not applicable".data) ++
  ("\n\nMATCHED SYMPTOMS: ".data) ++ joinWith (", ".data) g.matched_symptoms ++
  ("\n\nSUGGESTED FOLLOW-UP QUESTIONS:\n".data) ++
    joinWith ("\n".data) ((g.follow_up_questions.take 3).map (fun q => ("- ".data) ++ q)) ++
  ("\n\nURGENCY GUIDELINES:\n- Self-care: ".data) ++
    (lookupStr g.urgency_rules ("self_care".data)).getD ("N/A".data) ++
  ("\n- Doctor visit: ".data) ++
    (lookupStr g.urgency_rules ("doctor_visit".data)).getD ("N/A".data) ++
  ("\n- Emergency: ".data) ++
    (lookupStr g.urgency_rules ("emergency".data)).getD ("N/A".data) ++
  ("\n\nANALYSIS HINTS:\n".data) ++
    joinWith ("\n".data) (g.analysis_hints.map (fun h => ("- ".data) ++ h)) ++
  ("\n\nSUGGESTED ADVICE:\n".data) ++
    joinWith ("\n".data) (g.suggested_advice.map (fun a => ("- ".data) ++ a)) ++
  ("\n\nEMERGENCY KEYWORDS TO WATCH FOR:\n".data) ++
    joinWith (", ".data) (g.emergency_keywords.take 10) ++
  ("\n\nUSER\x27S CURRENT MESSAGE: \"".data) ++ user_message ++
  ("\"\n\nInstructions:\n1. If this is early in the conversation or you need more information, ask a relevant follow-up question\n2. If you have enough information, provide analysis with appropriate urgency level\n3. Use the guidance above as suggestions, not strict rules\n4. Do NOT diagnose or make definitive medical statements\n5. If user mentions emergency keywords, classify as \"emergency\" urgency\n".data)

/-- Embeds `build_full_prompt` (llm_prompt.py lines 103-108). -/
def build_full_prompt (s : MedicalSchema) (g : GuidanceBundle) (user_message : Str) : Str :=
  build_system_prompt ++ ("\n\n".data) ++ build_context_prompt s g user_message

/-! ## LLM client (app/core/llm_client.py)

JSON values returned by `json.loads` are modelled by `Json`.  Numbers
are modelled as integers: the only numeric literals the embedded code
produces are integral (`probability: 1.0` is rendered as the integral
number 1; numeric precision plays no role in any claim). -/

/-- A parsed JSON value. -/
inductive Json where
  | null
  | bool (b : Bool)
  | num (n : Int)
  | str (s : Str)
  | arr (xs : List Json)
  | obj (fields : List (Str × Json))

/-- Python dict read `d.get(k)` on a JSON object (`None`, modelled as
`none`, for a missing key or a non-dict). -/
def Json.getKey : Json → Str → Option Json
  | .obj fields, k => lookupStr fields k
  | _, _ => none

/-- Key-present test on a JSON object. -/
def Json.hasKey (j : Json) (k : Str) : Bool := (j.getKey k).isSome

/-- Python dict assignment `d[k] = v` on an association list: replace
the binding in place when the key exists, append otherwise. -/
def setPair (fields : List (Str × Json)) (k : Str) (v : Json) : List (Str × Json) :=
  if fields.any (fun p => decide (p.1 = k)) then
    fields.map (fun p => if p.1 = k then (p.1, v) else p)
  else fields ++ [(k, v)]

/-- Python `d[k] = v` on a JSON object. -/
def Json.setKey : Json → Str → Json → Json
  | .obj fields, k, v => .obj (setPair fields k v)
  | j, _, _ => j

/-- Python `if k not in d: d[k] = v` (llm_client.py lines 315-325). -/
def Json.ensureKey (j : Json) (k : Str) (v : Json) : Json :=
  if j.hasKey k then j else j.setKey k v

/-- One questionnaire response entry. -/
structure QA where
  question : Str
  answer : Str
deriving DecidableEq

/-- The slice of the decision-tree symptom data that influences the
returned report: `default_urgency` (llm_client.py lines 324, 370).
The other keys (`label`, `triage_rationale`, ...) only feed the prompt
text, which never flows into the returned report object.  A falsy
`symptom_data` (Python `None` or an empty dict) is modelled as the
`Option` being `none`. -/
structure SymptomData where
  default_urgency : Option Str := none
deriving DecidableEq

/-- The key-field extraction loop of `generate_medical_report`
(llm_client.py lines 132-145). -/
structure Extracted where
  name : Option Str := none
  cc : Option Str := none
  age : Option Str := none
  gender : Option Str := none
deriving DecidableEq

/-- One iteration of the extraction loop: an `if/elif` chain keyed on
substrings of the lowercased question.  `name`, `cc` and `gender`
are plain reassignments (last match wins); `age` is guarded by
`and not patient_age` (first truthy value wins). -/
def extractStep (st : Extracted) (qa : QA) : Extracted :=
  let q := pyLower qa.question
  if containsB q ("name".data) then { st with name := some qa.answer }
  else if containsB q ("chief complaint".data) || containsB q ("current ailment".data) then
    { st with cc := some qa.answer }
  else if containsB q ("age".data) && pyFalsyOptStr st.age then
    { st with age := some qa.answer }
  else if containsB q ("sex".data) || containsB q ("gender".data) then
    { st with gender := some qa.answer }
  else st

/-- The whole extraction loop over the questionnaire responses. -/
def extractFields (responses : List QA) : Extracted :=
  responses.foldl extractStep {}

/-- Python `int(s)`: optional surrounding whitespace, an optional
sign, then decimal digits (underscored literals never reach this
function with a parseable shape along any path of
`_extract_age_number`). -/
def pyInt? (s : Str) : Option Int :=
  let t := pyStrip s
  match t with
  | '+' :: ds =>
    if ds ≠ [] ∧ ds.all Char.isDigit then
      some (Int.ofNat (ds.foldl (fun acc c => acc * 10 + (c.toNat - 48)) 0))
    else none
  | '-' :: ds =>
    if ds ≠ [] ∧ ds.all Char.isDigit then
      some (-(Int.ofNat (ds.foldl (fun acc c => acc * 10 + (c.toNat - 48)) 0)))
    else none
  | ds =>
    if ds ≠ [] ∧ ds.all Char.isDigit then
      some (Int.ofNat (ds.foldl (fun acc c => acc * 10 + (c.toNat - 48)) 0))
    else none

/-- The `try: return int(age_str) except: return 0` tail of
`_extract_age_number`. -/
def tryIntWhole (s : Str) : Int := (pyInt? s).getD 0

/-- Embeds `_extract_age_number` (llm_client.py lines 341-359).  Python `//`
is floor division, hence `Int.fdiv`. -/
def extract_age_number (age_str : Option Str) : Int :=
  match age_str with
  | none => 0
  | some s =>
    if s = [] then 0
    else if containsB s ("_".data) then
      match pySplitOn ("_".data) s with
      | p0 :: p1 :: _ =>
        match pyInt? p0, pyInt? p1 with
        | some a, some b => Int.fdiv (a + b) 2
        | _, _ => tryIntWhole s
      | _ => tryIntWhole s
    else tryIntWhole s

/-- The `patient_info` block injected into every report
(llm_client.py lines 308-312 and 376-380). -/
def patientInfo (ex : Extracted) : Json :=
  .obj [(("name".data), .str (pyOrElse ex.name ("Unknown".data))),
        (("age".data), .num (extract_age_number ex.age)),
        (("gender".data), .str (pyOrElse ex.gender ("unknown".data)))]

/-- Python `symptom_data.get("default_urgency", "green_home_care") if
symptom_data else "green_home_care"` (llm_client.py lines 324, 370). -/
def defaultUrgency (sd : Option SymptomData) : Str :=
  match sd with
  | some d => d.default_urgency.getD ("green_home_care".data)
  | none => ("green_home_care".data)

/-- Embeds `generate_fallback_report` (llm_client.py lines 362-423): the
deterministic report used whenever the model is unavailable or returns
malformed output.  `uuid` and `now` are the values produced by
`uuid.uuid4()` and `datetime.utcnow().isoformat() + "Z"`, passed
explicitly to keep the embedding pure. -/
def generate_fallback_report (patient_name patient_age patient_gender chief_complaint : Option Str)
    (symptom_data : Option SymptomData) (uuid now : Str) : Json :=
  let topic := pyOrElse chief_complaint ("general_health".data)
  .obj
    [(("report_id".data), .str uuid),
     (("assessment_topic".data), .str topic),
     (("generated_at".data), .str now),
     (("patient_info".data),
      .obj [(("name".data), .str (pyOrElse patient_name ("Unknown".data))),
            (("age".data), .num (extract_age_number patient_age)),
            (("gender".data), .str (pyOrElse patient_gender ("unknown".data)))]),
     (("summary".data),
      .arr [.str (("Assessment received for ".data) ++ topic ++ (".".data)),
            .str ("Your symptoms have been documented.".data),
            .str ("A healthcare professional should review your case.".data)]),
     (("possible_causes".data),
      .arr [.obj
        [(("id".data), .str ("general_assessment".data)),
         (("title".data), .str ("Various possible conditions".data)),
         (("short_description".data), .str ("Multiple conditions could explain symptoms".data)),
         (("subtitle".data), .str ("Requires professional medical evaluation".data)),
         (("severity".data), .str ("unknown".data)),
         (("probability".data), .num 1),
         (("detail".data),
          .obj [(("about_this".data),
                 .arr [.str ("Multiple conditions could explain your symptoms.".data),
                       .str ("A medical professional can provide accurate diagnosis.".data),
                       .str ("Your specific case requires individual assessment.".data)]),
                (("how_common".data),
                 .obj [(("percentage".data), .num 50),
                       (("description".data),
                        .str ("Varies widely based on specific symptoms and history".data))]),
                (("what_you_can_do_now".data),
                 .arr [.str ("Document any changes in your symptoms".data),
                       .str ("Monitor your condition closely".data),
                       .str ("Keep track of when symptoms occur".data),
                       .str ("Note what makes symptoms better or worse".data)]),
                (("warning".data),
                 .str ("Seek immediate medical attention if symptoms worsen or new concerning symptoms develop".data))])]]),
     (("advice".data),
      .arr [.str ("Document any changes in your symptoms.".data),
            .str ("Monitor your condition closely.".data),
            .str ("Seek medical attention if symptoms worsen.".data),
            .str ("Consult with a healthcare provider for proper diagnosis.".data)]),
     (("urgency_level".data), .str (defaultUrgency symptom_data))]

/-- Outcome of one HTTP exchange with the model service, as it matters
to the callers: a raised exception, or a status code together with the
parse status of the first choice's message content. -/
inductive ContentResult where
  | malformed
  | parsed (j : Json)

/-- The body of the `requests.post` call: exception, or HTTP status
plus content. -/
inductive LLMCallOutcome where
  | exn
  | status (code : Nat) (body : ContentResult)

/-- The backfill defaults of `generate_medical_report`
(llm_client.py lines 315-325). -/
def defaultSummaryJson : Json :=
  .arr [.str ("Assessment completed based on provided information.".data)]

/-- Default advice backfilled for a missing `advice` key. -/
def defaultAdviceJson : Json :=
  .arr [.str ("Consult with a healthcare provider for personalized advice.".data)]

/-- Embeds `generate_medical_report` (llm_client.py lines 109-338).  The
prompt string built on lines 124-258 only feeds the outbound request
and never flows into the returned object, so it is not rendered here.
On a 200 response whose content parses to a JSON dict the code
injects metadata and backfills missing keys; a parsed non-dict raises
`TypeError` at `report["report_id"] = ...`, which the blanket
`except` turns into the fallback report, like every other failure. -/
def generate_medical_report (responses : List QA) (symptom_data : Option SymptomData)
    (apiKey : Option Str) (outcome : LLMCallOutcome) (uuid now : Str) : Json :=
  let ex := extractFields responses
  let fallback := generate_fallback_report ex.name ex.age ex.gender ex.cc symptom_data uuid now
  if pyFalsyOptStr apiKey then fallback
  else
    match outcome with
    | .exn => fallback
    | .status code body =>
      if code = 200 then
        match body with
        | .malformed => fallback
        | .parsed j =>
          match j with
          | .obj fields =>
            let r := ((Json.obj fields).setKey ("report_id".data) (.str uuid)
                      |>.setKey ("generated_at".data) (.str now)
                      |>.setKey ("patient_info".data) (patientInfo ex))
            let r := r.ensureKey ("assessment_topic".data)
                       (.str (pyOrElse ex.cc ("general_health".data)))
            let r := r.ensureKey ("summary".data) defaultSummaryJson
            let r := r.ensureKey ("possible_causes".data) (.arr [])
            let r := r.ensureKey ("advice".data) defaultAdviceJson
            let r := r.ensureKey ("urgency_level".data) (.str (defaultUrgency symptom_data))
            r
          | _ => fallback
      else fallback

/-- The safe question returned by `call_cerebras_llm` when the model
answers 200 with non-JSON content (llm_client.py lines 59-65). -/
def safeQuestionJson : Json :=
  .obj [(("type".data), .str ("question".data)),
        (("text".data), .str ("Could you provide more details about your symptoms?".data)),
        (("expected_format".data), .str ("Please describe what you\x27re experiencing".data))]

/-- Embeds `call_cerebras_llm` (llm_client.py lines 12-72). -/
def call_cerebras_llm (apiKey : Option Str) (outcome : LLMCallOutcome) : Option Json :=
  if pyFalsyOptStr apiKey then none
  else
    match outcome with
    | .exn => none
    | .status code body =>
      if code = 200 then
        match body with
        | .parsed j => some j
        | .malformed => some safeQuestionJson
      else none

/-- The fallback response of `get_llm_response`
(llm_client.py lines 102-106). -/
def fallbackQuestionJson : Json :=
  .obj [(("type".data), .str ("question".data)),
        (("text".data), .str ("Can you tell me more about your symptoms?".data)),
        (("expected_format".data), .str ("Please describe what you\x27re experiencing in detail".data))]

/-- The validation on llm_client.py lines 95-99: the response must be
a truthy dict whose `"type"` value is one of the three literal
strings. -/
def validTypeField (fields : List (Str × Json)) : Bool :=
  match lookupStr fields ("type".data) with
  | some (.str t) =>
    decide (t = ("question".data)) || decide (t = ("analysis".data)) ||
    decide (t = ("decision".data))
  | _ => false

/-- Embeds `get_llm_response` (llm_client.py lines 75-106).  The prompt is
built from the inputs and sent; `outcome` is the exchange's result.
A Python `if llm_response and isinstance(llm_response, dict)` admits
exactly the non-empty JSON objects. -/
def get_llm_response (medical_schema : MedicalSchema) (guidance : GuidanceBundle)
    (user_message : Str) (apiKey : Option Str) (outcome : LLMCallOutcome) : Json :=
  let _prompt := build_full_prompt medical_schema guidance user_message
  match call_cerebras_llm apiKey outcome with
  | some (.obj (f :: fs)) =>
    if validTypeField (f :: fs) then .obj (f :: fs) else fallbackQuestionJson
  | _ => fallbackQuestionJson

/-! ## Chat continuation route (app/chatbot/chatbot_routes.py) -/

/-- One chat message of the request history. -/
structure ChatMessage where
  role : Str
  content : Str
deriving DecidableEq

/-- A continue-chat request (`ContinueChatRequest`). -/
structure ContinueReq where
  session_id : Str
  history : List ChatMessage
deriving DecidableEq

/-- A persisted chat session as returned by `get_chat_session`:
`profile_data` and `reports`, both consumed opaquely by the prompt
builder and the model call. -/
structure ChatSession where
  profile_data : List QA
  reports : List Json

/-- Result of the `/chat/message` endpoint: a chat reply, or an
`HTTPException` with its status code and detail. -/
inductive ChatResult where
  | ok (message : Str)
  | err (status : Nat) (detail : Str)
deriving DecidableEq

/-- The effects a `continue_chat` call performed: how many times the
session store was read and how many outbound LLM calls were made. -/
structure ChatEffects where
  storeReads : Nat
  llmCalls : Nat
deriving DecidableEq

/-- The fallback chat reply (chatbot_routes.py line 25). -/
def FALLBACK_MESSAGE : Str :=
  ("I\x27m sorry, something went wrong. Please try again.".data)

/-- Embeds `continue_chat` (chatbot_routes.py lines 284-337).  The session
store is the function `store`; the outbound model call is the oracle
`llm`, which receives the loaded session (from which the system prompt
is rebuilt), the history without its last element, and the last user
message, and either returns a reply or raises.  The effects record
counts the store reads and LLM calls the control flow performs. -/
def continue_chat (store : Str → Option ChatSession)
    (llm : ChatSession → List ChatMessage → Str → Except Unit Str)
    (req : ContinueReq) : ChatResult × ChatEffects :=
  match req.history.getLast? with
  | none => (.err 400 ("History cannot be empty".data), ⟨0, 0⟩)
  | some last =>
    if last.role ≠ ("user".data) then
      (.err 400 ("Last message in history must be from user".data), ⟨0, 0⟩)
    else
      match store req.session_id with
      | none =>
        (.err 404 (("Chat session not found: ".data) ++ req.session_id), ⟨1, 0⟩)
      | some sess =>
        match llm sess req.history.dropLast last.content with
        | .ok m => (.ok m, ⟨1, 1⟩)
        | .error _ => (.ok FALLBACK_MESSAGE, ⟨1, 1⟩)

/-! ## Claim-side definitions

These definitions follow the wording of the specification claims; the
claim theorems compare them against the source-derived definitions
above. -/

/-- The matching condition as worded in claim C2: `k == c`, or `k` a
substring of `c`, or `c` a substring of `k`, or the space-stripped
form of either a substring of the space-stripped form of the other. -/
def specCondC2 (k c : Str) : Bool :=
  decide (k = c) || containsB c k || containsB k c ||
  containsB (stripSpaces c) (stripSpaces k) ||
  containsB (stripSpaces k) (stripSpaces c)

/-- Pass 4 of `keywordMatches` in isolation (claim C9): only the
space-stripped containment test, applied to the normalized keyword
and complaint. -/
def keywordMatchesPass4 (complaintNorm keyword : Str) : Bool :=
  let k := pyStrip (pyLower keyword)
  containsB (stripSpaces complaintNorm) (stripSpaces k) ||
  containsB (stripSpaces k) (stripSpaces complaintNorm)

/-- Claim-side `match_symptoms` restricted to pass 4 (claim C9). -/
def match_symptoms_pass4 (complaint : Str) (symptoms_data : List (Str × SymptomRule)) : List Str :=
  if complaint = [] then []
  else
    let complaint_normalized := normalizeComplaint complaint
    (symptoms_data.filter
      (fun p => (p.2.keywords.getD []).any (keywordMatchesPass4 complaint_normalized))).map (·.1)

/-- The rule texts supplied for one urgency level by the matched
symptoms, in matched-symptom order (then rule order within a
symptom) — the reference list for claim C3. -/
def gatherUrgency (matched : List Str) (symptoms_data : List (Str × SymptomRule)) (level : Str) : List Str :=
  matched.flatMap (fun name =>
    match lookupStr symptoms_data name with
    | none => []
    | some sd => ((sd.urgency_rules.getD []).filter (fun lr => decide (lr.1 = level))).map (·.2))

/-- The amended claim C4 as worded: normalize, reject whole-text
negations (`none`, `no`, `nothing`, `n/a`), split on the first
separator found among `","`, `";"`, `"and"` (a bare substring), `"&"`
in that priority order, trim each token, drop empty tokens and the
negation tokens `none`, `no`, `nothing`. -/
def parse_medical_history_spec (history_text : Str) : List Str :=
  if history_text = [] then []
  else
    let h := pyStrip (pyLower history_text)
    if h ∈ negationsWhole then []
    else
      let items :=
        match [(",".data), (";".data), ("and".data), ("&".data)].find? (containsB h) with
        | none => [h]
        | some sep => (pySplitOn sep h).map pyStrip
      items.filter (fun i => decide (i ≠ []) && decide (i ∉ negationsToken))

/-- Does the value stored under `k` exist and is it a non-empty JSON
array?  (The shape claims C1 makes about `summary` and `advice`.) -/
def keyNonemptyArr (j : Json) (k : Str) : Bool :=
  match j.getKey k with
  | some (.arr (_ :: _)) => true
  | _ => false

/-- Is the value stored under `urgency_level` one of the three enum
strings of the report contract? -/
def keyUrgencyEnum (j : Json) : Bool :=
  match j.getKey ("urgency_level".data) with
  | some (.str s) =>
    decide (s = ("red_emergency".data)) || decide (s = ("yellow_doctor_visit".data)) ||
    decide (s = ("green_home_care".data))
  | _ => false

/-- All (level, rule-text) pairs contributed by the matched symptoms,
in matched-symptom order then rule order: the flattening of the
two-level urgency collection loop of `build_guidance_bundle`. -/
def urgPairs (matched : List Str) (symptoms_data : List (Str × SymptomRule)) : List (Str × Str) :=
  matched.flatMap (fun n =>
    match lookupStr symptoms_data n with
    | none => []
    | some sd => sd.urgency_rules.getD [])

/-- The metadata-injection prefix of the success path of
`generate_medical_report` (llm_client.py lines 304-312): `report_id`,
`generated_at` and `patient_info` written into the parsed object. -/
def reportChain3 (fields : List (Str × Json)) (ex : Extracted) (uuid now : Str) : Json :=
  (((Json.obj fields).setKey ("report_id".data) (Json.str uuid)).setKey
    ("generated_at".data) (Json.str now)).setKey ("patient_info".data) (patientInfo ex)

/-- Stage 4: the `assessment_topic` backfill (llm_client.py lines
315-316). -/
def reportChain4 (fields : List (Str × Json)) (ex : Extracted) (uuid now : Str) : Json :=
  (reportChain3 fields ex uuid now).ensureKey ("assessment_topic".data)
    (Json.str (pyOrElse ex.cc ("general_health".data)))

/-- Stage 5: the `summary` backfill (lines 317-318). -/
def reportChain5 (fields : List (Str × Json)) (ex : Extracted) (uuid now : Str) : Json :=
  (reportChain4 fields ex uuid now).ensureKey ("summary".data) defaultSummaryJson

/-- Stage 6: the `possible_causes` backfill (lines 319-320). -/
def reportChain6 (fields : List (Str × Json)) (ex : Extracted) (uuid now : Str) : Json :=
  (reportChain5 fields ex uuid now).ensureKey ("possible_causes".data) (Json.arr [])

/-- Stage 7: the `advice` backfill (lines 321-322). -/
def reportChain7 (fields : List (Str × Json)) (ex : Extracted) (uuid now : Str) : Json :=
  (reportChain6 fields ex uuid now).ensureKey ("advice".data) defaultAdviceJson

/-- Stage 8: the `urgency_level` backfill (lines 323-325): the whole
post-processing of a successfully parsed report object. -/
def reportChain8 (fields : List (Str × Json)) (ex : Extracted) (sd : Option SymptomData)
    (uuid now : Str) : Json :=
  (reportChain7 fields ex uuid now).ensureKey ("urgency_level".data)
    (Json.str (defaultUrgency sd))

/-! ## Failure-outcome predicate and concrete instances used by the
claim theorems -/

/-- The failure outcomes of `generate_medical_report`: absent API key,
transport error, non-200 status, malformed content, or content that
parses to a non-object JSON value. -/
def reportFailureOutcome (apiKey : Option Str) (outcome : LLMCallOutcome) : Prop :=
  pyFalsyOptStr apiKey = true ∨ outcome = .exn ∨
  (∃ code body, outcome = .status code body ∧ code ≠ 200) ∨
  outcome = .status 200 .malformed ∨
  (∃ j, outcome = .status 200 (.parsed j) ∧ ∀ fields, j ≠ .obj fields)

/-- A one-symptom rule table for exercising the matcher. -/
def cx2Rule : SymptomRule := { keywords := some [("headache".data)] }

/-- Symptom table holding only `cx2Rule`. -/
def cx2Table : List (Str × SymptomRule) := [(("headache".data), cx2Rule)]

/-- A symptom with a `doctor_visit` urgency rule `"A"`. -/
def cx3RuleFever : SymptomRule :=
  { keywords := some [("feverish".data)],
    urgency_rules := some [(("doctor_visit".data), ("A".data))] }

/-- A symptom with a `doctor_visit` urgency rule `"B"`. -/
def cx3RuleHead : SymptomRule :=
  { keywords := some [("headache".data)],
    urgency_rules := some [(("doctor_visit".data), ("B".data))] }

/-- A two-symptom rule table where both symptoms supply a
`doctor_visit` rule. -/
def cx3Guidance : GuidanceData :=
  { symptoms := some [(("feverish".data), cx3RuleFever), (("headache".data), cx3RuleHead)] }

/-- A rule table defining only the global fields. -/
def cx8Guidance : GuidanceData :=
  { emergency_keywords := some [("chest pain".data)],
    disclaimer := some ("General guidance only.".data) }

/-- A concrete medical schema. -/
def cx6Schema : MedicalSchema :=
  { demographics := { age := some 30, gender := some ("female".data) },
    medical_history := [("asthma".data)],
    current_complaint := some ("bad headache".data),
    pregnancy_status := none }

/-- A concrete guidance bundle. -/
def cx6Bundle : GuidanceBundle :=
  { matched_symptoms := [("headache".data)],
    follow_up_questions := [("How long has this lasted?".data)],
    urgency_rules := [(("self_care".data), ("rest".data))],
    analysis_hints := [],
    suggested_advice := [],
    emergency_keywords := [],
    disclaimer := ("General guidance only.".data) }

/-- An empty session store. -/
def cx7Store : Str → Option ChatSession := fun _ => none

/-- An LLM oracle that always replies. -/
def cx7Llm : ChatSession → List ChatMessage → Str → Except Unit Str :=
  fun _ _ _ => Except.ok ("a reply".data)

/-- A continue-chat request whose history validly ends in a user
turn. -/
def cx7Req : ContinueReq :=
  { session_id := ("sess-1".data),
    history := [{ role := ("user".data), content := ("hello".data) }] }

/-- A 200 response whose JSON object carries an empty `summary`, an
empty `advice` and an out-of-enum `urgency_level`. -/
def cx1SuccessOutcome : LLMCallOutcome :=
  .status 200 (.parsed (.obj
    [(("summary".data), .arr []),
     (("advice".data), .arr []),
     (("urgency_level".data), .str ("purple".data))]))

/-- The report surfaced for `cx1SuccessOutcome`. -/
def cx1SuccessReport : Json :=
  generate_medical_report [] none (some ("key".data)) cx1SuccessOutcome
    ("uuid-1".data) ("2025-01-01T00:00:00Z".data)

/-- The fallback report produced with no API key and a symptom-data
default urgency outside the enum. -/
def cx1NoKeyReport : Json :=
  generate_medical_report [] (some { default_urgency := some ("purple".data) }) none
    LLMCallOutcome.exn ("uuid-1".data) ("2025-01-01T00:00:00Z".data)

/-! ## Character-level lemmas -/

/-- The map `Char.ofNat` round-trips on the lowercase ASCII range. -/
theorem charOfNat_toNat_lower (n : Nat) (h1 : 97 ≤ n) (h2 : n ≤ 122) :
    (Char.ofNat n).toNat = n := by
  interval_cases n <;> rfl

/-- Rephrases `pyIsSpace` as a single decidable proposition. -/
theorem pyIsSpace_eq_decide (c : Char) :
    pyIsSpace c = decide (c.toNat = 32 ∨ c.toNat = 9 ∨ c.toNat = 10 ∨
      c.toNat = 13 ∨ c.toNat = 11 ∨ c.toNat = 12) := by
  simp [pyIsSpace, Bool.decide_or, Bool.or_assoc]

/-- Lowercasing a non-uppercase character is the identity. -/
theorem pyToLower_of_not_upper (c : Char) (h : ¬(65 ≤ c.toNat ∧ c.toNat ≤ 90)) :
    pyToLower c = c := by
  unfold pyToLower
  exact if_neg h

/-- The code of a lowered uppercase character. -/
theorem pyToLower_toNat_of_upper (c : Char) (h : 65 ≤ c.toNat ∧ c.toNat ≤ 90) :
    (pyToLower c).toNat = c.toNat + 32 := by
  unfold pyToLower
  rw [if_pos h]
  exact charOfNat_toNat_lower (c.toNat + 32) (by omega) (by omega)

/-- Lowercasing never makes or unmakes a space (code 32). -/
theorem pyToLower_toNat32_iff (c : Char) : ((pyToLower c).toNat = 32) ↔ (c.toNat = 32) := by
  by_cases h : 65 ≤ c.toNat ∧ c.toNat ≤ 90
  · rw [pyToLower_toNat_of_upper c h]
    omega
  · rw [pyToLower_of_not_upper c h]

/-- Lowercasing never makes or unmakes whitespace. -/
theorem pyIsSpace_pyToLower (c : Char) : pyIsSpace (pyToLower c) = pyIsSpace c := by
  rw [pyIsSpace_eq_decide, pyIsSpace_eq_decide]
  apply decide_eq_decide.mpr
  by_cases h : 65 ≤ c.toNat ∧ c.toNat ≤ 90
  · rw [pyToLower_toNat_of_upper c h]
    omega
  · rw [pyToLower_of_not_upper c h]

/-- Lowercasing is idempotent. -/
theorem pyToLower_idem (c : Char) : pyToLower (pyToLower c) = pyToLower c := by
  by_cases h : 65 ≤ c.toNat ∧ c.toNat ≤ 90
  · apply pyToLower_of_not_upper
    rw [pyToLower_toNat_of_upper c h]
    omega
  · simp [pyToLower_of_not_upper c h]

/-! ## List-level string lemmas -/

/-- A list each of whose elements is fixed by `f` is fixed by `map f`. -/
theorem map_eq_self_of_fixed {α : Type} (f : α → α) :
    ∀ (l : List α), (∀ a ∈ l, f a = a) → l.map f = l := by
  intro l
  induction l with
  | nil => intro _; rfl
  | cons a t ih =>
    intro h
    simp only [List.map_cons]
    rw [h a (by simp), ih (fun x hx => h x (List.mem_cons_of_mem a hx))]

/-- Space-stripping commutes with lowercasing. -/
theorem stripSpaces_pyLower (s : Str) : stripSpaces (pyLower s) = pyLower (stripSpaces s) := by
  unfold stripSpaces pyLower
  rw [List.filter_map]
  congr 1
  apply List.filter_congr
  intro x _
  simp only [Function.comp_apply]
  congr 1
  exact decide_eq_decide.mpr (pyToLower_toNat32_iff x)

/-- Mapping preserves the infix relation. -/
theorem isInfix_map {α β : Type} (f : α → β) {a b : List α} (h : a <:+: b) :
    a.map f <:+: b.map f := by
  obtain ⟨s, t, rfl⟩ := h
  exact ⟨s.map f, t.map f, by simp⟩

/-- Decomposition: `pyStrip` splits its argument into an all-whitespace prefix, the
stripped core, and an all-whitespace suffix. -/
theorem pyStrip_decomp (s : Str) :
    ∃ p q, s = p ++ pyStrip s ++ q ∧ (∀ a ∈ p, pyIsSpace a = true) ∧
      (∀ a ∈ q, pyIsSpace a = true) := by
  refine ⟨s.takeWhile pyIsSpace,
    ((s.dropWhile pyIsSpace).reverse.takeWhile pyIsSpace).reverse, ?_, ?_, ?_⟩
  · conv_lhs => rw [← List.takeWhile_append_dropWhile (p := pyIsSpace) (l := s)]
    rw [List.append_assoc]
    congr 1
    unfold pyStrip
    conv_lhs => rw [← (s.dropWhile pyIsSpace).reverse_reverse]
    conv_lhs =>
      rw [← List.takeWhile_append_dropWhile (p := pyIsSpace)
        (l := (s.dropWhile pyIsSpace).reverse)]
    rw [List.reverse_append]
  · intro a ha
    exact List.mem_takeWhile_imp ha
  · intro a ha
    rw [List.mem_reverse] at ha
    exact List.mem_takeWhile_imp ha

/-- The stripped string `pyStrip s` is an infix of `s`. -/
theorem pyStrip_infix_of_self (s : Str) : pyStrip s <:+: s := by
  obtain ⟨p, q, h, _, _⟩ := pyStrip_decomp s
  exact ⟨p, q, h.symm⟩

/-- A non-empty all-non-whitespace infix of `P ++ X` with `P`
all-whitespace is an infix of `X`. -/
theorem infix_drop_ws_left (C X : Str) (hC : ∀ a ∈ C, pyIsSpace a = false)
    (hne : C ≠ []) :
    ∀ P : Str, (∀ a ∈ P, pyIsSpace a = true) → C <:+: P ++ X → C <:+: X := by
  intro P
  induction P with
  | nil => intro _ h; simpa using h
  | cons a P ih =>
    intro hP h
    rw [List.cons_append, List.infix_cons_iff] at h
    rcases h with h | h
    · exfalso
      obtain ⟨t, ht⟩ := h
      cases C with
      | nil => exact hne rfl
      | cons c cs =>
        have hca : c = a := by
          have := congrArg List.head? ht
          simpa using this
        have h1 := hC c (by simp)
        have h2 := hP a (by simp)
        rw [hca] at h1
        exact Bool.false_ne_true (h1.symm.trans h2)
    · exact ih (fun x hx => hP x (List.mem_cons_of_mem a hx)) h

/-- A non-empty all-non-whitespace infix of `X ++ S` with `S`
all-whitespace is an infix of `X`. -/
theorem infix_drop_ws_right (C X : Str) (hC : ∀ a ∈ C, pyIsSpace a = false)
    (hne : C ≠ []) :
    ∀ S : Str, (∀ a ∈ S, pyIsSpace a = true) → C <:+: X ++ S → C <:+: X := by
  intro S hS h
  have h' : C.reverse <:+: S.reverse ++ X.reverse := by
    have := h.reverse
    rwa [List.reverse_append] at this
  have h2 : C.reverse <:+: X.reverse := by
    refine infix_drop_ws_left C.reverse X.reverse ?_ ?_ S.reverse ?_ h'
    · intro a ha
      exact hC a (List.mem_reverse.mp ha)
    · simpa [List.reverse_eq_nil_iff] using hne
    · intro a ha
      exact hS a (List.mem_reverse.mp ha)
  have h3 := h2.reverse
  simpa using h3

/-- Structure of the pieces produced by `pySplitWS`: each piece is
non-empty, whitespace-free, and drawn from the input. -/
theorem pySplitWS_parts : ∀ (l : Str), ∀ p ∈ pySplitWS l,
    p ≠ [] ∧ ∀ a ∈ p, pyIsSpace a = false ∧ a ∈ l
  | [] => by simp [pySplitWS]
  | [c] => by
    by_cases h : pyIsSpace c = true
    · simp [pySplitWS, h]
    · intro p hp
      simp only [pySplitWS, if_neg h, List.mem_singleton] at hp
      subst hp
      refine ⟨by simp, ?_⟩
      intro a ha
      simp only [List.mem_singleton] at ha
      subst ha
      exact ⟨by simpa using h, by simp⟩
  | c :: d :: rest => by
    by_cases h : pyIsSpace c = true
    · intro p hp
      rw [show pySplitWS (c :: d :: rest) = pySplitWS (d :: rest) by
        simp [pySplitWS, h]] at hp
      obtain ⟨hne, hall⟩ := pySplitWS_parts (d :: rest) p hp
      exact ⟨hne, fun a ha => ⟨(hall a ha).1, List.mem_cons_of_mem c (hall a ha).2⟩⟩
    · intro p hp
      rcases hm : pySplitWS (d :: rest) with _ | ⟨q, qs⟩
      · rw [show pySplitWS (c :: d :: rest) = [[c]] by simp [pySplitWS, h, hm]] at hp
        simp only [List.mem_singleton] at hp
        subst hp
        refine ⟨by simp, ?_⟩
        intro a ha
        simp only [List.mem_singleton] at ha
        subst ha
        exact ⟨by simpa using h, by simp⟩
      · by_cases hd : pyIsSpace d = true
        · rw [show pySplitWS (c :: d :: rest) = [c] :: q :: qs by
            simp [pySplitWS, h, hm, hd]] at hp
          rcases List.mem_cons.mp hp with hp | hp
          · subst hp
            refine ⟨by simp, ?_⟩
            intro a ha
            simp only [List.mem_singleton] at ha
            subst ha
            exact ⟨by simpa using h, by simp⟩
          · have hrec := pySplitWS_parts (d :: rest) p (by rw [hm]; exact hp)
            exact ⟨hrec.1, fun a ha =>
              ⟨(hrec.2 a ha).1, List.mem_cons_of_mem c (hrec.2 a ha).2⟩⟩
        · rw [show pySplitWS (c :: d :: rest) = (c :: q) :: qs by
            simp [pySplitWS, h, hm, hd]] at hp
          rcases List.mem_cons.mp hp with hp | hp
          · subst hp
            have hq := pySplitWS_parts (d :: rest) q (by rw [hm]; simp)
            refine ⟨by simp, ?_⟩
            intro a ha
            rcases List.mem_cons.mp ha with ha | ha
            · subst ha
              exact ⟨by simpa using h, by simp⟩
            · exact ⟨(hq.2 a ha).1, List.mem_cons_of_mem c (hq.2 a ha).2⟩
          · have hrec := pySplitWS_parts (d :: rest) p
              (by rw [hm]; exact List.mem_cons_of_mem q hp)
            exact ⟨hrec.1, fun a ha =>
              ⟨(hrec.2 a ha).1, List.mem_cons_of_mem c (hrec.2 a ha).2⟩⟩

/-- Membership in a space-joined list of pieces. -/
theorem mem_joinSpace : ∀ (parts : List Str) (a : Char), a ∈ joinSpace parts →
    a = ' ' ∨ ∃ p ∈ parts, a ∈ p
  | [] => by simp [joinSpace, joinWith]
  | [x] => by
    intro a ha
    simp only [joinSpace, joinWith] at ha
    exact Or.inr ⟨x, by simp, ha⟩
  | x :: y :: ys => by
    intro a ha
    simp only [joinSpace, joinWith] at ha
    rcases List.mem_append.mp ha with ha | ha
    · rcases List.mem_append.mp ha with ha | ha
      · exact Or.inr ⟨x, by simp, ha⟩
      · simp only [List.mem_singleton] at ha
        exact Or.inl ha
    · rcases mem_joinSpace (y :: ys) a (by simpa [joinSpace] using ha) with h | ⟨p, hp, hap⟩
      · exact Or.inl h
      · exact Or.inr ⟨p, List.mem_cons_of_mem x hp, hap⟩

/-- The filter `stripSpaces` fixes a whitespace-free string. -/
theorem stripSpaces_eq_self (l : Str) (h : ∀ a ∈ l, pyIsSpace a = false) :
    stripSpaces l = l := by
  apply List.filter_eq_self.mpr
  intro a ha
  have h2 := h a ha
  rw [pyIsSpace_eq_decide] at h2
  simp only [decide_eq_false_iff_not] at h2
  simp only [Bool.not_eq_true']
  simp only [decide_eq_false_iff_not]
  omega

/-- Space-stripping a space-joined list of whitespace-free pieces
flattens it. -/
theorem stripSpaces_joinSpace : ∀ (parts : List Str),
    (∀ p ∈ parts, ∀ a ∈ p, pyIsSpace a = false) →
    stripSpaces (joinSpace parts) = parts.flatten
  | [] => by intro _; rfl
  | [x] => by
    intro h
    simp only [joinSpace, joinWith, List.flatten]
    rw [stripSpaces_eq_self x (h x (by simp))]
    simp
  | x :: y :: ys => by
    intro h
    have hx := h x (by simp)
    have hrest : ∀ p ∈ (y :: ys), ∀ a ∈ p, pyIsSpace a = false :=
      fun p hp => h p (List.mem_cons_of_mem x hp)
    show stripSpaces (x ++ [' '] ++ joinWith [' '] (y :: ys)) = (x :: y :: ys).flatten
    unfold stripSpaces
    rw [List.filter_append, List.filter_append]
    have h1 : List.filter (fun c => !(c.toNat = 32 : Bool)) x = x := stripSpaces_eq_self x hx
    have h2 : List.filter (fun c => !(c.toNat = 32 : Bool)) [' '] = [] := by decide
    have h3 := stripSpaces_joinSpace (y :: ys) hrest
    unfold stripSpaces joinSpace at h3
    rw [h1, h2, h3]
    simp [List.flatten]

/-- Every character of a fixed point of the complaint normalization is
fixed by lowercasing, and its only whitespace character is the plain
space. -/
theorem normalized_char_facts (c : Str) (hc : normalizeComplaint c = c) :
    ∀ a ∈ c, pyToLower a = a ∧ (pyIsSpace a = true → a = ' ') := by
  intro a ha
  conv at ha => rw [← hc]
  unfold normalizeComplaint at ha
  rcases mem_joinSpace _ a ha with h | ⟨p, hp, hap⟩
  · subst h
    exact ⟨by decide, fun _ => rfl⟩
  · obtain ⟨_, hall⟩ := pySplitWS_parts _ p hp
    obtain ⟨hnsp, hmem⟩ := hall a hap
    have h2 : a ∈ pyLower c := (pyStrip_infix_of_self (pyLower c)).subset hmem
    obtain ⟨b, hb, rfl⟩ := List.mem_map.mp h2
    exact ⟨pyToLower_idem b, fun hsp => absurd hsp (by simp [hnsp])⟩

/-- A normalized complaint is already lowercase. -/
theorem normalized_lower_fix (c : Str) (hc : normalizeComplaint c = c) :
    pyLower c = c :=
  map_eq_self_of_fixed _ c (fun a ha => (normalized_char_facts c hc a ha).1)

/-- The space-stripped form of a normalized complaint has no
whitespace at all. -/
theorem normalized_stripSpaces_noWs (c : Str) (hc : normalizeComplaint c = c) :
    ∀ a ∈ stripSpaces c, pyIsSpace a = false := by
  intro a ha
  have hm := List.mem_filter.mp ha
  rcases Bool.eq_false_or_eq_true (pyIsSpace a) with h | h
  · have ha' := (normalized_char_facts c hc a hm.1).2 h
    subst ha'
    exact absurd hm.2 (by decide)
  · exact h

/-- The space-stripped form of a non-empty normalized complaint is
non-empty. -/
theorem normalized_stripSpaces_ne_nil (c : Str) (hc : normalizeComplaint c = c)
    (hne : c ≠ []) : stripSpaces c ≠ [] := by
  have hflat : stripSpaces c = (pySplitWS (pyStrip (pyLower c))).flatten := by
    conv_lhs => rw [← hc]
    exact stripSpaces_joinSpace _ (fun p hp a ha => ((pySplitWS_parts _ p hp).2 a ha).1)
  rw [hflat]
  rcases hp : pySplitWS (pyStrip (pyLower c)) with _ | ⟨p, ps⟩
  · exfalso
    apply hne
    rw [← hc]
    unfold normalizeComplaint
    rw [hp]
    rfl
  · have hpne := (pySplitWS_parts _ p (by rw [hp]; simp)).1
    simp only [List.flatten_cons]
    intro habs
    rw [List.append_eq_nil] at habs
    exact hpne habs.1

/-- Bridge for claim C2: for a non-empty normalized complaint, the
claim's raw-keyword condition forces pass 4 of the code's matcher on
the normalized keyword. -/
theorem specCond_bridge (c k : Str) (hc : normalizeComplaint c = c) (hne : c ≠ [])
    (h : specCondC2 k c = true) : keywordMatchesPass4 c k = true := by
  have hAB : stripSpaces k <:+: stripSpaces c ∨ stripSpaces c <:+: stripSpaces k := by
    simp only [specCondC2, Bool.or_eq_true, decide_eq_true_eq, containsB] at h
    rcases h with ((((h | h) | h) | h) | h)
    · subst h
      exact Or.inl (List.infix_refl _)
    · exact Or.inl (List.IsInfix.filter _ h)
    · exact Or.inr (List.IsInfix.filter _ h)
    · exact Or.inl h
    · exact Or.inr h
  simp only [keywordMatchesPass4, Bool.or_eq_true, decide_eq_true_eq, containsB]
  rcases hAB with hA | hB
  · left
    have h1 : stripSpaces (pyStrip (pyLower k)) <:+: stripSpaces (pyLower k) :=
      List.IsInfix.filter _ (pyStrip_infix_of_self (pyLower k))
    rw [stripSpaces_pyLower] at h1
    have h2 : pyLower (stripSpaces k) = stripSpaces k := by
      apply map_eq_self_of_fixed
      intro a ha
      have hac : a ∈ stripSpaces c := hA.subset ha
      have hacc : a ∈ c := (List.mem_filter.mp hac).1
      exact (normalized_char_facts c hc a hacc).1
    rw [h2] at h1
    exact h1.trans hA
  · right
    have hfix : pyLower (stripSpaces c) = stripSpaces c := by
      apply map_eq_self_of_fixed
      intro a ha
      exact (normalized_char_facts c hc a (List.mem_filter.mp ha).1).1
    have h1 : stripSpaces c <:+: stripSpaces (pyLower k) := by
      have := isInfix_map pyToLower hB
      rw [show (stripSpaces c).map pyToLower = pyLower (stripSpaces c) from rfl,
        show (stripSpaces k).map pyToLower = pyLower (stripSpaces k) from rfl,
        hfix, ← stripSpaces_pyLower] at this
      exact this
    obtain ⟨p, q, hdec, hpws, hqws⟩ := pyStrip_decomp (pyLower k)
    rw [hdec] at h1
    rw [show stripSpaces (p ++ pyStrip (pyLower k) ++ q) =
        stripSpaces p ++ stripSpaces (pyStrip (pyLower k)) ++ stripSpaces q from by
      unfold stripSpaces
      rw [List.filter_append, List.filter_append]] at h1
    have hCn := normalized_stripSpaces_noWs c hc
    have hCne := normalized_stripSpaces_ne_nil c hc hne
    have h2 : stripSpaces c <:+: stripSpaces p ++ stripSpaces (pyStrip (pyLower k)) :=
      infix_drop_ws_right _ _ hCn hCne (stripSpaces q)
        (fun a ha => hqws a (List.mem_filter.mp ha).1) h1
    exact infix_drop_ws_left _ _ hCn hCne (stripSpaces p)
      (fun a ha => hpws a (List.mem_filter.mp ha).1) h2

/-- Pass 4 alone forces the full four-pass test. -/
theorem keywordMatches_of_pass4 (cn kw : Str) (h : keywordMatchesPass4 cn kw = true) :
    keywordMatches cn kw = true := by
  simp only [keywordMatches, keywordMatchesPass4, Bool.or_eq_true] at h ⊢
  tauto

/-- Per keyword, the four-pass test of `match_symptoms` is equivalent
to its fourth pass alone: passes 1-3 are each subsumed by pass 4. -/
theorem keywordMatches_eq_pass4 (cn kw : Str) :
    keywordMatches cn kw = keywordMatchesPass4 cn kw := by
  rw [Bool.eq_iff_iff]
  constructor
  · intro h
    simp only [keywordMatches, Bool.or_eq_true, decide_eq_true_eq, containsB] at h
    simp only [keywordMatchesPass4, Bool.or_eq_true, decide_eq_true_eq, containsB]
    rcases h with (((h | h) | h) | h)
    · rw [h]
      exact Or.inl (List.infix_refl _)
    · exact Or.inl (List.IsInfix.filter _ h)
    · exact Or.inr (List.IsInfix.filter _ h)
    · exact h
  · exact keywordMatches_of_pass4 cn kw

/-- C9: The four-pass matching policy of `match_symptoms` is
equivalent to checking only the fourth pass: for every complaint and
rule table, the matched list produced by the full test equals the one
produced by space-stripped containment (of the normalized keyword, in
either direction) alone — passes 1-3 are each subsumed by pass 4. -/
theorem c9_match_equiv_pass4 (complaint : Str) (symptoms_data : List (Str × SymptomRule)) :
    match_symptoms complaint symptoms_data = match_symptoms_pass4 complaint symptoms_data := by
  by_cases h : complaint = []
  · simp [match_symptoms, match_symptoms_pass4, h]
  · simp only [match_symptoms, match_symptoms_pass4, if_neg h]
    congr 1
    apply List.filter_congr
    intro p _
    have hany : ∀ ks : List Str,
        ks.any (keywordMatches (normalizeComplaint complaint)) =
        ks.any (keywordMatchesPass4 (normalizeComplaint complaint)) := by
      intro ks
      induction ks with
      | nil => rfl
      | cons a t ih => simp only [List.any_cons, ih, keywordMatches_eq_pass4]
    exact hany _

/-- C2 (amended): for every non-empty normalized complaint `c`, every
symptom of the rule table and every keyword `k` of that symptom, the
claim's matching condition (`k == c`, either-direction substring, or
either-direction space-stripped containment) puts the symptom into
`match_symptoms c`. -/
theorem c2_match_condition (symptoms_data : List (Str × SymptomRule)) (sid : Str)
    (rule : SymptomRule) (k c : Str) (hc : normalizeComplaint c = c) (hne : c ≠ [])
    (hmem : (sid, rule) ∈ symptoms_data) (hk : k ∈ rule.keywords.getD [])
    (hcond : specCondC2 k c = true) :
    sid ∈ match_symptoms c symptoms_data := by
  simp only [match_symptoms, if_neg hne]
  rw [hc]
  apply List.mem_map.mpr
  refine ⟨(sid, rule), List.mem_filter.mpr ⟨hmem, ?_⟩, rfl⟩
  apply List.any_eq_true.mpr
  exact ⟨k, hk, keywordMatches_of_pass4 c k (specCond_bridge c k hc hne hcond)⟩

/-- C2 counterexample: the empty string is a normalized complaint and
satisfies the claim's condition against the keyword `"headache"`
(`c` is a substring of `k`), yet `match_symptoms` returns the empty
list for it, so the claimed membership fails as stated. -/
theorem c2_match_condition_counterexample :
    normalizeComplaint [] = ([] : Str) ∧
    specCondC2 ("headache".data) [] = true ∧
    (("headache".data), cx2Rule) ∈ cx2Table ∧
    ("headache".data) ∈ cx2Rule.keywords.getD [] ∧
    ("headache".data) ∉ match_symptoms [] cx2Table :=
  ⟨rfl, by decide, by decide, by decide, by decide⟩

/-- Witness for the amended C2 at a concrete input: the normalized
complaint `"head"` is a substring of the keyword `"headache"`. -/
theorem c2_match_condition_witness :
    ("headache".data) ∈ match_symptoms ("head".data) cx2Table :=
  c2_match_condition cx2Table ("headache".data) cx2Rule ("headache".data) ("head".data)
    (by decide) (by decide) (by decide) (by decide) (by decide)

/-! ## Association-list lemmas for the urgency merge -/

/-- Unfolding `lookupStr` over a cons cell. -/
theorem lookupStr_cons {α : Type} (k' : Str) (v : α) (t : List (Str × α)) (k : Str) :
    lookupStr ((k', v) :: t) k = if k' = k then some v else lookupStr t k := by
  by_cases h : k' = k <;> simp [lookupStr, List.find?_cons, h]

/-- The existence check of `addUrgency` agrees with `lookupStr`. -/
theorem any_eq_lookup_isSome {α : Type} (l : List (Str × α)) (k : Str) :
    (l.any (fun p => decide (p.1 = k))) = (lookupStr l k).isSome := by
  induction l with
  | nil => rfl
  | cons p t ih =>
    rcases p with ⟨k', v⟩
    by_cases h : k' = k
    dsimp at *
    · simp [List.any_cons, lookupStr_cons, h]
    · simp [List.any_cons, lookupStr_cons, h, ih]

/-- Behavior of `lookupStr` over an append. -/
theorem lookupStr_append {α : Type} (l1 l2 : List (Str × α)) (k : Str) :
    lookupStr (l1 ++ l2) k = (lookupStr l1 k).or (lookupStr l2 k) := by
  induction l1 with
  | nil => simp [lookupStr]
  | cons p t ih =>
    rcases p with ⟨k', v⟩
    by_cases h : k' = k
    · simp [lookupStr_cons, h]
    · simp [lookupStr_cons, h, ih]

/-- Behavior of `lookupStr` through the in-place append of the map
branch. -/
theorem lookupStr_addUrgency_map (acc : List (Str × List Str)) (level rule lvl : Str) :
    lookupStr (acc.map (fun p => if p.1 = level then (p.1, p.2 ++ [rule]) else p)) lvl =
      if level = lvl then (lookupStr acc lvl).map (· ++ [rule]) else lookupStr acc lvl := by
  induction acc with
  | nil => by_cases h : level = lvl <;> simp [lookupStr, h]
  | cons p t ih =>
    rcases p with ⟨k', v⟩
    by_cases h1 : k' = level
    · subst h1
      by_cases h2 : k' = lvl
      · subst h2
        simp [lookupStr_cons]
      · simp [lookupStr_cons, h2, ih]
    · by_cases h2 : k' = lvl
      · subst h2
        simp [lookupStr_cons, h1, if_neg (Ne.symm h1)]
      · simp [lookupStr_cons, h1, h2, ih]

/-- Behavior of `lookupStr` after one `addUrgency` step. -/
theorem lookupStr_addUrgency (acc : List (Str × List Str)) (level rule lvl : Str) :
    lookupStr (addUrgency acc level rule) lvl =
      if level = lvl then some ((lookupStr acc lvl).getD [] ++ [rule])
      else lookupStr acc lvl := by
  unfold addUrgency
  by_cases hmem : (acc.any fun p => decide (p.1 = level)) = true
  · rw [if_pos hmem, lookupStr_addUrgency_map]
    by_cases h : level = lvl
    · subst h
      rw [if_pos rfl, if_pos rfl]
      have hsome : (lookupStr acc level).isSome := by
        rw [← any_eq_lookup_isSome]
        exact hmem
      rcases hs : lookupStr acc level with _ | v
      · rw [hs] at hsome
        simp at hsome
      · simp
    · rw [if_neg h, if_neg h]
  · rw [if_neg hmem, lookupStr_append]
    by_cases h : level = lvl
    · subst h
      have hnone : lookupStr acc level = none := by
        rcases hs : lookupStr acc level with _ | v
        · rfl
        · exfalso
          apply hmem
          rw [any_eq_lookup_isSome, hs]
          rfl
      rw [hnone, if_pos rfl]
      simp [lookupStr_cons]
    · rw [if_neg h]
      simp [lookupStr_cons, h, lookupStr]

/-- Behavior of `lookupStr` after folding `addUrgency` over a pair list: the value
is the accumulator's entry extended by all rules for that level, in
order. -/
theorem lookupStr_foldl_addUrgency (pairs : List (Str × Str)) :
    ∀ (acc : List (Str × List Str)) (lvl : Str),
    lookupStr (pairs.foldl (fun a lr => addUrgency a lr.1 lr.2) acc) lvl =
      (if (lookupStr acc lvl).isSome ∨
          ((pairs.filter (fun lr => decide (lr.1 = lvl))).map (·.2)) ≠ [] then
        some ((lookupStr acc lvl).getD [] ++
          (pairs.filter (fun lr => decide (lr.1 = lvl))).map (·.2))
      else none) := by
  induction pairs with
  | nil =>
    intro acc lvl
    rcases hs : lookupStr acc lvl with _ | v <;> simp [hs]
  | cons lr rest ih =>
    intro acc lvl
    rcases lr with ⟨l, r⟩
    simp only [List.foldl_cons]
    rw [ih (addUrgency acc l r) lvl, lookupStr_addUrgency]
    by_cases h : l = lvl
    · subst h
      rw [if_pos rfl]
      have hfil : (((l, r) :: rest).filter (fun lr => decide (lr.1 = l))) =
          (l, r) :: rest.filter (fun lr => decide (lr.1 = l)) := by
        simp [List.filter_cons]
      rw [hfil]
      simp [List.append_assoc]
    · rw [if_neg h]
      have hfil : (((l, r) :: rest).filter (fun lr => decide (lr.1 = lvl))) =
          rest.filter (fun lr => decide (lr.1 = lvl)) := by
        simp [List.filter_cons, h]
      rw [hfil]

/-- The urgency accumulator of the symptom loop equals a single
`addUrgency` fold over the flattened pair list. -/
theorem buildSt_comb (symptoms_data : List (Str × SymptomRule)) :
    ∀ (matched : List Str) (st : BuildSt),
    (matched.foldl (processSymptom symptoms_data) st).comb =
      (urgPairs matched symptoms_data).foldl (fun a lr => addUrgency a lr.1 lr.2) st.comb := by
  intro matched
  induction matched with
  | nil => intro st; rfl
  | cons n rest ih =>
    intro st
    simp only [List.foldl_cons]
    rw [ih (processSymptom symptoms_data st n)]
    have hstep : (processSymptom symptoms_data st n).comb =
        (match lookupStr symptoms_data n with
         | none => ([] : List (Str × Str))
         | some sd => sd.urgency_rules.getD []).foldl
          (fun (a : List (Str × List Str)) (lr : Str × Str) =>
            addUrgency a lr.1 lr.2) st.comb := by
      unfold processSymptom
      rcases lookupStr symptoms_data n with _ | sd
      · rfl
      · rfl
    rw [hstep]
    have hsplit : urgPairs (n :: rest) symptoms_data =
        (match lookupStr symptoms_data n with
         | none => ([] : List (Str × Str))
         | some sd => sd.urgency_rules.getD []) ++ urgPairs rest symptoms_data :=
      List.flatMap_cons ..
    rw [hsplit, List.foldl_append]

/-- The claim-side `gatherUrgency` is the per-level filter of the
flattened pair list. -/
theorem gatherUrgency_eq_filter (matched : List Str)
    (symptoms_data : List (Str × SymptomRule)) (lvl : Str) :
    gatherUrgency matched symptoms_data lvl =
      ((urgPairs matched symptoms_data).filter (fun lr => decide (lr.1 = lvl))).map (·.2) := by
  induction matched with
  | nil => rfl
  | cons n rest ih =>
    show (List.flatMap _ _) = _
    rw [List.flatMap_cons]
    conv_rhs =>
      rw [show urgPairs (n :: rest) symptoms_data =
        (match lookupStr symptoms_data n with
         | none => ([] : List (Str × Str))
         | some sd => sd.urgency_rules.getD []) ++ urgPairs rest symptoms_data from
        List.flatMap_cons ..]
    rw [List.filter_append, List.map_append, ← ih]
    congr 1
    rcases lookupStr symptoms_data n with _ | sd
    · rfl
    · rfl

/-- Behavior of `lookupStr` through the final flattening map of
`build_guidance_bundle`. -/
theorem lookupStr_map_flatten (l : List (Str × List Str)) (lvl : Str) :
    lookupStr (l.map (fun p => (p.1, flattenRules p.2))) lvl =
      (lookupStr l lvl).map flattenRules := by
  induction l with
  | nil => rfl
  | cons p t ih =>
    rcases p with ⟨k', v⟩
    by_cases h : k' = lvl <;> simp [lookupStr_cons, h, ih]

/-- C3: in the aggregated bundle, each urgency level maps to the rule
texts supplied by the matched symptoms in matched-symptom order: when
two or more texts are supplied they are joined by the literal
`" OR "`; when exactly one is supplied it is kept unmodified. -/
theorem c3_urgency_merge (matched : List Str) (g : GuidanceData) (lvl : Str) :
    (2 ≤ (gatherUrgency matched (g.symptoms.getD []) lvl).length →
      lookupStr (build_guidance_bundle matched g).urgency_rules lvl =
        some (joinWith (" OR ".data) (gatherUrgency matched (g.symptoms.getD []) lvl))) ∧
    ((gatherUrgency matched (g.symptoms.getD []) lvl).length = 1 →
      lookupStr (build_guidance_bundle matched g).urgency_rules lvl =
        some ((gatherUrgency matched (g.symptoms.getD []) lvl).headD [])) := by
  rcases hm : matched with _ | ⟨n, rest⟩
  · constructor
    · intro h2
      simp [gatherUrgency] at h2
    · intro h1
      simp [gatherUrgency] at h1
  · have hlook : lookupStr (build_guidance_bundle (n :: rest) g).urgency_rules lvl =
        (if ((gatherUrgency (n :: rest) (g.symptoms.getD []) lvl) : List Str) ≠ [] then
          some (gatherUrgency (n :: rest) (g.symptoms.getD []) lvl)
        else none).map flattenRules := by
      have hb : (build_guidance_bundle (n :: rest) g).urgency_rules =
          (((n :: rest).foldl (processSymptom (g.symptoms.getD []))
            ⟨[], [], [], []⟩).comb).map (fun p => (p.1, flattenRules p.2)) := by
        simp only [build_guidance_bundle]
        rw [if_neg (by simp)]
      rw [hb, lookupStr_map_flatten, buildSt_comb, lookupStr_foldl_addUrgency,
        ← gatherUrgency_eq_filter]
      rcases hrs : gatherUrgency (n :: rest) (g.symptoms.getD []) lvl with _ | ⟨r, rs⟩
      · simp [hrs, lookupStr]
      · simp [hrs, lookupStr]
    constructor
    · intro h2
      rw [hlook]
      have hne2 : gatherUrgency (n :: rest) (g.symptoms.getD []) lvl ≠ [] := by
        intro habs
        rw [habs] at h2
        simp at h2
      rw [if_pos hne2]
      have hlen : (gatherUrgency (n :: rest) (g.symptoms.getD []) lvl).length > 1 := by omega
      have hfr : flattenRules (gatherUrgency (n :: rest) (g.symptoms.getD []) lvl) =
          joinWith (" OR ".data) (gatherUrgency (n :: rest) (g.symptoms.getD []) lvl) := by
        unfold flattenRules
        rw [if_pos hlen]
      simp [hfr]
    · intro h1
      rw [hlook]
      rcases hgr : gatherUrgency (n :: rest) (g.symptoms.getD []) lvl with _ | ⟨r, rs⟩
      · rw [hgr] at h1
        simp at h1
      · rw [hgr] at h1
        simp only [List.length_cons] at h1
        have hrs : rs = [] := by
          rcases rs with _ | _
          · rfl
          · simp at h1
        subst hrs
        rw [if_pos (by simp)]
        simp [flattenRules]

/-- Witness for C3: `"feverish"` and `"headache"` both supply a
`doctor_visit` rule, merged as `"A OR B"`; a single supplier is kept
unmodified. -/
theorem c3_urgency_merge_witness :
    lookupStr (build_guidance_bundle [("feverish".data), ("headache".data)]
        cx3Guidance).urgency_rules ("doctor_visit".data) = some ("A OR B".data) ∧
    lookupStr (build_guidance_bundle [("feverish".data)]
        cx3Guidance).urgency_rules ("doctor_visit".data) = some ("A".data) := by
  constructor
  · have h := (c3_urgency_merge [("feverish".data), ("headache".data)] cx3Guidance
      ("doctor_visit".data)).1 (by decide)
    rw [h]
    decide
  · have h := (c3_urgency_merge [("feverish".data)] cx3Guidance
      ("doctor_visit".data)).2 (by decide)
    rw [h]
    decide

/-- The separator loop of `parse_medical_history` picks the first
separator that occurs in the text. -/
theorem chooseSplit_eq_find (h : Str) : ∀ seps : List Str,
    chooseSplit seps h =
      (match seps.find? (containsB h) with
       | none => [h]
       | some sep => (pySplitOn sep h).map pyStrip) := by
  intro seps
  induction seps with
  | nil => rfl
  | cons s rest ih =>
    by_cases hc : containsB h s = true
    · simp [chooseSplit, List.find?_cons, hc]
    · simp [chooseSplit, List.find?_cons, hc, ih]

/-- C4 (amended): `parse_medical_history` normalizes, maps the whole
negations `none/no/nothing/n-slash-a` to the empty list, splits on the
first separator found among `","`, `";"`, `"and"` (a bare substring,
not surrounded by spaces), `"&"` in that priority order, trims each
token, and drops empty tokens and the tokens `none`, `no`, `nothing`
(`"n/a"` is not dropped as a token), preserving order. -/
theorem c4_parse_history (t : Str) :
    parse_medical_history t = parse_medical_history_spec t := by
  unfold parse_medical_history parse_medical_history_spec
  by_cases h0 : t = []
  · simp [h0]
  · rw [if_neg h0, if_neg h0]
    by_cases hn : pyStrip (pyLower t) ∈ negationsWhole
    · rw [if_pos hn, if_pos hn]
    · rw [if_neg hn, if_neg hn]
      rw [chooseSplit_eq_find]

/-- C4 counterexample: the claim's separator `" and "` (with spaces)
and its negation-token set including `"n/a"` do not describe the
code: `"glandular fever"` is split on the bare substring `"and"`, and
the token `"n/a"` is kept.  Under the claim the results would be
`["glandular fever"]` and `["a"]`. -/
theorem c4_parse_history_counterexample :
    parse_medical_history ("glandular fever".data) = [("gl".data), ("ular fever".data)] ∧
    parse_medical_history ("a, n/a".data) = [("a".data), ("n/a".data)] := by
  constructor
  · decide
  · decide

/-- C5 (amended): every call of `get_guidance` performs exactly one
load of the rules source — the table is re-read per request, not
cached at process start. -/
theorem c5_per_request_load (fs : LoadResult) (schema : SchemaForGuidance) :
    (get_guidance fs schema).2 = 1 := by
  cases fs <;> rfl

/-- C5 counterexample: a `get_guidance` call performs a non-zero
number of loads of the rules source, refuting "no per-request call
performs a fresh load". -/
theorem c5_counterexample :
    (get_guidance (.ok {}) { current_complaint := none }).2 ≠ 0 := by
  decide

/-- C8: aggregating over an empty matched list yields empty
follow-up-question, urgency, hint and advice fields, while the global
`emergency_keywords` and `disclaimer` are copied from the rule table
when the table defines them. -/
theorem c8_empty_matched (g : GuidanceData) (ek : List Str) (d : Str) :
    (build_guidance_bundle [] g).follow_up_questions = [] ∧
    (build_guidance_bundle [] g).urgency_rules = [] ∧
    (build_guidance_bundle [] g).analysis_hints = [] ∧
    (build_guidance_bundle [] g).suggested_advice = [] ∧
    (g.emergency_keywords = some ek → (build_guidance_bundle [] g).emergency_keywords = ek) ∧
    (g.disclaimer = some d → (build_guidance_bundle [] g).disclaimer = d) := by
  have hb : build_guidance_bundle [] g =
      { matched_symptoms := []
        follow_up_questions := []
        urgency_rules := []
        analysis_hints := []
        suggested_advice := []
        emergency_keywords := g.emergency_keywords.getD []
        disclaimer := g.disclaimer.getD [] } := by
    simp [build_guidance_bundle]
  rw [hb]
  refine ⟨rfl, rfl, rfl, rfl, ?_, ?_⟩
  · intro h
    rw [h]
    rfl
  · intro h
    rw [h]
    rfl

/-- Witness for C8 at a concrete rule table defining both global
fields. -/
theorem c8_empty_matched_witness :
    (build_guidance_bundle [] cx8Guidance).emergency_keywords = [("chest pain".data)] ∧
    (build_guidance_bundle [] cx8Guidance).disclaimer = ("General guidance only.".data) :=
  ⟨(c8_empty_matched cx8Guidance [("chest pain".data)]
      ("General guidance only.".data)).2.2.2.2.1 rfl,
   (c8_empty_matched cx8Guidance [("chest pain".data)]
      ("General guidance only.".data)).2.2.2.2.2 rfl⟩

/-- C6: the prompt composer is deterministic — two calls with equal
`(schema, guidance, user_message)` triples produce byte-identical
prompt text.  The embedded composer is a pure function of these three
inputs: the source draws on no clock, randomness or unordered
iteration. -/
theorem c6_prompt_deterministic (s1 s2 : MedicalSchema) (g1 g2 : GuidanceBundle)
    (m1 m2 : Str) (hs : s1 = s2) (hg : g1 = g2) (hm : m1 = m2) :
    build_full_prompt s1 g1 m1 = build_full_prompt s2 g2 m2 := by
  subst hs
  subst hg
  subst hm
  rfl

/-- Witness for C6 at a concrete triple. -/
theorem c6_prompt_deterministic_witness :
    build_full_prompt cx6Schema cx6Bundle ("I have a headache".data) =
      build_full_prompt cx6Schema cx6Bundle ("I have a headache".data) :=
  c6_prompt_deterministic cx6Schema cx6Schema cx6Bundle cx6Bundle
    ("I have a headache".data) ("I have a headache".data) rfl rfl rfl

/-- C7: a continue-chat request with an empty history, or whose last
message is not a user turn, is rejected with HTTP 400 before the
session store is read and before any LLM call; a valid history
against an unknown session id yields HTTP 404 with no LLM call. -/
theorem c7_continue_chat_validation (store : Str → Option ChatSession)
    (llm : ChatSession → List ChatMessage → Str → Except Unit Str) (req : ContinueReq) :
    (req.history = [] →
      continue_chat store llm req =
        (.err 400 ("History cannot be empty".data), ⟨0, 0⟩)) ∧
    (∀ last, req.history.getLast? = some last → last.role ≠ ("user".data) →
      continue_chat store llm req =
        (.err 400 ("Last message in history must be from user".data), ⟨0, 0⟩)) ∧
    (∀ last, req.history.getLast? = some last → last.role = ("user".data) →
      store req.session_id = none →
      (continue_chat store llm req).1 =
        .err 404 (("Chat session not found: ".data) ++ req.session_id) ∧
      (continue_chat store llm req).2.llmCalls = 0) := by
  refine ⟨?_, ?_, ?_⟩
  · intro h
    unfold continue_chat
    rw [show req.history.getLast? = none from by rw [h]; rfl]
  · intro last hl hr
    unfold continue_chat
    rw [hl]
    dsimp only
    rw [if_pos hr]
  · intro last hl hr hstore
    unfold continue_chat
    rw [hl]
    dsimp only
    rw [if_neg (by simp [hr]), hstore]
    exact ⟨rfl, rfl⟩

/-- Witness for C7: a valid one-message user history against an empty
session store yields 404 and no LLM call. -/
theorem c7_continue_chat_witness :
    (continue_chat cx7Store cx7Llm cx7Req).1 =
      .err 404 (("Chat session not found: ".data) ++ ("sess-1".data)) ∧
    (continue_chat cx7Store cx7Llm cx7Req).2.llmCalls = 0 :=
  (c7_continue_chat_validation cx7Store cx7Llm cx7Req).2.2
    { role := ("user".data), content := ("hello".data) } rfl rfl rfl

/-- C10: whatever the model call produces, `get_llm_response` returns
a JSON object whose `"type"` is exactly one of `"question"`,
`"analysis"`, `"decision"`; a parsed object with any other type value
is replaced by the fallback question response. -/
theorem c10_response_type_closed (ms : MedicalSchema) (g : GuidanceBundle) (msg : Str)
    (apiKey : Option Str) (outcome : LLMCallOutcome) :
    (∃ t : Str, (get_llm_response ms g msg apiKey outcome).getKey ("type".data) =
        some (.str t) ∧
      (t = ("question".data) ∨ t = ("analysis".data) ∨ t = ("decision".data))) ∧
    (∀ fields, pyFalsyOptStr apiKey = false →
      outcome = .status 200 (.parsed (.obj fields)) →
      validTypeField fields = false →
      get_llm_response ms g msg apiKey outcome = fallbackQuestionJson) := by
  constructor
  · simp only [get_llm_response]
    rcases hr : call_cerebras_llm apiKey outcome with _ | j
    · exact ⟨("question".data), rfl, Or.inl rfl⟩
    · cases j with
      | obj fields =>
        cases fields with
        | nil => exact ⟨("question".data), rfl, Or.inl rfl⟩
        | cons f fs =>
          by_cases hv : validTypeField (f :: fs) = true
          · dsimp only
            rw [if_pos hv]
            unfold validTypeField at hv
            rcases hl : lookupStr (f :: fs) ("type".data) with _ | v
            · rw [hl] at hv
              cases hv
            · rw [hl] at hv
              cases v with
              | str t =>
                simp only [Bool.or_eq_true, decide_eq_true_eq] at hv
                refine ⟨t, ?_, by tauto⟩
                simp [Json.getKey, hl]
              | null => simp at hv
              | bool b => simp at hv
              | num n => simp at hv
              | arr xs => simp at hv
              | obj fs2 => simp at hv
          · dsimp only
            rw [if_neg hv]
            exact ⟨("question".data), rfl, Or.inl rfl⟩
      | null => exact ⟨("question".data), rfl, Or.inl rfl⟩
      | bool b => exact ⟨("question".data), rfl, Or.inl rfl⟩
      | num n => exact ⟨("question".data), rfl, Or.inl rfl⟩
      | str s => exact ⟨("question".data), rfl, Or.inl rfl⟩
      | arr xs => exact ⟨("question".data), rfl, Or.inl rfl⟩
  · intro fields hk ho hv
    have hc : call_cerebras_llm apiKey outcome = some (.obj fields) := by
      rw [ho]
      unfold call_cerebras_llm
      rw [hk]
      rfl
    simp only [get_llm_response]
    rw [hc]
    cases fields with
    | nil => rfl
    | cons f fs =>
      dsimp only
      rw [if_neg (by simp [hv])]

/-- Witness for C10's replacement clause: a parsed object whose
`"type"` is `"bogus"` is replaced by the fallback question. -/
theorem c10_response_type_closed_witness :
    get_llm_response cx6Schema cx6Bundle ("hi".data) (some ("key".data))
      (.status 200 (.parsed (.obj [(("type".data), .str ("bogus".data))]))) =
      fallbackQuestionJson :=
  (c10_response_type_closed cx6Schema cx6Bundle ("hi".data) (some ("key".data))
    (.status 200 (.parsed (.obj [(("type".data), .str ("bogus".data))])))).2
    [(("type".data), .str ("bogus".data))] rfl rfl (by decide)

/-! ## JSON object lemmas for the report shape -/

/-- Replacement map of `setPair` at the written key. -/
theorem lookupStr_setmap (fields : List (Str × Json)) (k : Str) (v : Json) :
    lookupStr (fields.map (fun p => if p.1 = k then (p.1, v) else p)) k =
      if (lookupStr fields k).isSome then some v else none := by
  induction fields with
  | nil => simp [lookupStr]
  | cons p t ih =>
    rcases p with ⟨k', w⟩
    by_cases h : k' = k
    · subst h
      simp [lookupStr_cons]
    · simp [lookupStr_cons, h, ih]

/-- Replacement map of `setPair` at any other key. -/
theorem lookupStr_setmap_ne (fields : List (Str × Json)) (k k' : Str) (v : Json)
    (hkk : k ≠ k') :
    lookupStr (fields.map (fun p => if p.1 = k then (p.1, v) else p)) k' =
      lookupStr fields k' := by
  induction fields with
  | nil => rfl
  | cons p t ih =>
    rcases p with ⟨k2, w⟩
    by_cases h : k2 = k
    · subst h
      simp [lookupStr_cons, hkk, ih]
    · by_cases h2 : k2 = k' <;> simp [lookupStr_cons, h, h2, ih, Ne.symm hkk]

/-- After `d[k] = v`, reading `k` gives `v`. -/
theorem getKey_setKey_self (fields : List (Str × Json)) (k : Str) (v : Json) :
    ((Json.obj fields).setKey k v).getKey k = some v := by
  show (Json.obj (setPair fields k v)).getKey k = some v
  unfold setPair
  by_cases hmem : (fields.any fun p => decide (p.1 = k)) = true
  · rw [if_pos hmem]
    show lookupStr _ k = some v
    rw [lookupStr_setmap]
    rw [any_eq_lookup_isSome] at hmem
    rw [if_pos hmem]
  · rw [if_neg hmem]
    show lookupStr (fields ++ [(k, v)]) k = some v
    rw [lookupStr_append]
    have hnone : lookupStr fields k = none := by
      rcases hs : lookupStr fields k with _ | w
      · rfl
      · exfalso
        apply hmem
        rw [any_eq_lookup_isSome, hs]
        rfl
    rw [hnone]
    simp [lookupStr_cons]

/-- Writing `d[k] = v` does not disturb other keys. -/
theorem getKey_setKey_ne (j : Json) (k k' : Str) (v : Json) (h : k ≠ k') :
    (j.setKey k v).getKey k' = j.getKey k' := by
  cases j with
  | obj fields =>
    show (Json.obj (setPair fields k v)).getKey k' = _
    unfold setPair
    by_cases hmem : (fields.any fun p => decide (p.1 = k)) = true
    · rw [if_pos hmem]
      exact lookupStr_setmap_ne fields k k' v h
    · rw [if_neg hmem]
      show lookupStr (fields ++ [(k, v)]) k' = lookupStr fields k'
      rw [lookupStr_append]
      simp [lookupStr_cons, h, lookupStr]
  | null => rfl
  | bool b => rfl
  | num n => rfl
  | str s => rfl
  | arr xs => rfl

/-- Backfilling one key does not disturb other keys. -/
theorem getKey_ensureKey_ne (j : Json) (k k' : Str) (v : Json) (h : k ≠ k') :
    (j.ensureKey k v).getKey k' = j.getKey k' := by
  unfold Json.ensureKey
  by_cases hk : j.hasKey k = true
  · rw [if_pos hk]
  · rw [if_neg hk]
    exact getKey_setKey_ne j k k' v h

/-- A present key survives the backfill unmodified. -/
theorem getKey_ensureKey_present (j : Json) (k : Str) (v v0 : Json)
    (h : j.getKey k = some v0) : (j.ensureKey k v).getKey k = some v0 := by
  unfold Json.ensureKey
  rw [if_pos (by unfold Json.hasKey; rw [h]; rfl)]
  exact h

/-- A missing key of an object is backfilled with the default. -/
theorem getKey_ensureKey_missing_obj (fields : List (Str × Json)) (k : Str) (v : Json)
    (h : (Json.obj fields).getKey k = none) :
    ((Json.obj fields).ensureKey k v).getKey k = some v := by
  unfold Json.ensureKey
  rw [if_neg (by unfold Json.hasKey; rw [h]; simp)]
  exact getKey_setKey_self fields k v

/-- The backfill `ensureKey` keeps an object an object. -/
theorem ensureKey_obj (fields : List (Str × Json)) (k : Str) (v : Json) :
    ∃ f2, (Json.obj fields).ensureKey k v = Json.obj f2 := by
  unfold Json.ensureKey
  by_cases h : (Json.obj fields).hasKey k = true
  · rw [if_pos h]
    exact ⟨fields, rfl⟩
  · rw [if_neg h]
    exact ⟨setPair fields k v, rfl⟩

/-- On a 200 response with a parsed JSON object (and a present API
key), `generate_medical_report` returns the post-processing chain
applied to that object. -/
theorem generate_success (responses : List QA) (sd : Option SymptomData)
    (apiKey : Option Str) (fields : List (Str × Json)) (uuid now : Str)
    (hk : pyFalsyOptStr apiKey = false) :
    generate_medical_report responses sd apiKey (.status 200 (.parsed (.obj fields)))
        uuid now =
      reportChain8 fields (extractFields responses) sd uuid now := by
  simp only [generate_medical_report]
  rw [if_neg (by simp [hk])]
  rfl

/-- Every key other than the injected and backfilled ones reads
through the metadata prefix and the topic backfill unchanged. -/
theorem chain4_getKey_other (fields : List (Str × Json)) (ex : Extracted) (uuid now K : Str)
    (h1 : K ≠ ("report_id".data)) (h2 : K ≠ ("generated_at".data))
    (h3 : K ≠ ("patient_info".data)) (h4 : K ≠ ("assessment_topic".data)) :
    (reportChain4 fields ex uuid now).getKey K = lookupStr fields K := by
  unfold reportChain4 reportChain3
  rw [getKey_ensureKey_ne _ _ _ _ (Ne.symm h4), getKey_setKey_ne _ _ _ _ (Ne.symm h3),
    getKey_setKey_ne _ _ _ _ (Ne.symm h2), getKey_setKey_ne _ _ _ _ (Ne.symm h1)]
  rfl

/-- The chain stays a JSON object (stage 4). -/
theorem chain4_obj (fields : List (Str × Json)) (ex : Extracted) (uuid now : Str) :
    ∃ f, reportChain4 fields ex uuid now = Json.obj f := by
  unfold reportChain4 reportChain3
  exact ensureKey_obj _ _ _

/-- The chain stays a JSON object (stage 5). -/
theorem chain5_obj (fields : List (Str × Json)) (ex : Extracted) (uuid now : Str) :
    ∃ f, reportChain5 fields ex uuid now = Json.obj f := by
  unfold reportChain5
  obtain ⟨f4, hf4⟩ := chain4_obj fields ex uuid now
  rw [hf4]
  exact ensureKey_obj _ _ _

/-- The chain stays a JSON object (stage 6). -/
theorem chain6_obj (fields : List (Str × Json)) (ex : Extracted) (uuid now : Str) :
    ∃ f, reportChain6 fields ex uuid now = Json.obj f := by
  unfold reportChain6
  obtain ⟨f5, hf5⟩ := chain5_obj fields ex uuid now
  rw [hf5]
  exact ensureKey_obj _ _ _

/-- The chain stays a JSON object (stage 7). -/
theorem chain7_obj (fields : List (Str × Json)) (ex : Extracted) (uuid now : Str) :
    ∃ f, reportChain7 fields ex uuid now = Json.obj f := by
  unfold reportChain7
  obtain ⟨f6, hf6⟩ := chain6_obj fields ex uuid now
  rw [hf6]
  exact ensureKey_obj _ _ _

/-- A `summary` supplied by the model survives post-processing
unmodified. -/
theorem chain8_summary_present (fields : List (Str × Json)) (ex : Extracted)
    (sd : Option SymptomData) (uuid now : Str) (v : Json)
    (hv : lookupStr fields ("summary".data) = some v) :
    (reportChain8 fields ex sd uuid now).getKey ("summary".data) = some v := by
  unfold reportChain8
  rw [getKey_ensureKey_ne _ _ _ _ (by decide)]
  unfold reportChain7
  rw [getKey_ensureKey_ne _ _ _ _ (by decide)]
  unfold reportChain6
  rw [getKey_ensureKey_ne _ _ _ _ (by decide)]
  unfold reportChain5
  exact getKey_ensureKey_present _ _ _ v
    ((chain4_getKey_other fields ex uuid now _ (by decide) (by decide) (by decide)
      (by decide)).trans hv)

/-- A missing `summary` is backfilled with the non-empty default. -/
theorem chain8_summary_missing (fields : List (Str × Json)) (ex : Extracted)
    (sd : Option SymptomData) (uuid now : Str)
    (hv : lookupStr fields ("summary".data) = none) :
    (reportChain8 fields ex sd uuid now).getKey ("summary".data) =
      some defaultSummaryJson := by
  unfold reportChain8
  rw [getKey_ensureKey_ne _ _ _ _ (by decide)]
  unfold reportChain7
  rw [getKey_ensureKey_ne _ _ _ _ (by decide)]
  unfold reportChain6
  rw [getKey_ensureKey_ne _ _ _ _ (by decide)]
  unfold reportChain5
  obtain ⟨f4, hf4⟩ := chain4_obj fields ex uuid now
  rw [hf4]
  apply getKey_ensureKey_missing_obj
  rw [← hf4]
  exact (chain4_getKey_other fields ex uuid now _ (by decide) (by decide) (by decide)
    (by decide)).trans hv

/-- An `advice` supplied by the model survives post-processing
unmodified. -/
theorem chain8_advice_present (fields : List (Str × Json)) (ex : Extracted)
    (sd : Option SymptomData) (uuid now : Str) (v : Json)
    (hv : lookupStr fields ("advice".data) = some v) :
    (reportChain8 fields ex sd uuid now).getKey ("advice".data) = some v := by
  unfold reportChain8
  rw [getKey_ensureKey_ne _ _ _ _ (by decide)]
  unfold reportChain7
  apply getKey_ensureKey_present
  unfold reportChain6
  rw [getKey_ensureKey_ne _ _ _ _ (by decide)]
  unfold reportChain5
  rw [getKey_ensureKey_ne _ _ _ _ (by decide)]
  exact (chain4_getKey_other fields ex uuid now _ (by decide) (by decide) (by decide)
    (by decide)).trans hv

/-- A missing `advice` is backfilled with the non-empty default. -/
theorem chain8_advice_missing (fields : List (Str × Json)) (ex : Extracted)
    (sd : Option SymptomData) (uuid now : Str)
    (hv : lookupStr fields ("advice".data) = none) :
    (reportChain8 fields ex sd uuid now).getKey ("advice".data) =
      some defaultAdviceJson := by
  unfold reportChain8
  rw [getKey_ensureKey_ne _ _ _ _ (by decide)]
  unfold reportChain7
  obtain ⟨f6, hf6⟩ := chain6_obj fields ex uuid now
  rw [hf6]
  apply getKey_ensureKey_missing_obj
  rw [← hf6]
  unfold reportChain6
  rw [getKey_ensureKey_ne _ _ _ _ (by decide)]
  unfold reportChain5
  rw [getKey_ensureKey_ne _ _ _ _ (by decide)]
  exact (chain4_getKey_other fields ex uuid now _ (by decide) (by decide) (by decide)
    (by decide)).trans hv

/-- An `urgency_level` supplied by the model survives post-processing
unmodified. -/
theorem chain8_urgency_present (fields : List (Str × Json)) (ex : Extracted)
    (sd : Option SymptomData) (uuid now : Str) (v : Json)
    (hv : lookupStr fields ("urgency_level".data) = some v) :
    (reportChain8 fields ex sd uuid now).getKey ("urgency_level".data) = some v := by
  unfold reportChain8
  apply getKey_ensureKey_present
  unfold reportChain7
  rw [getKey_ensureKey_ne _ _ _ _ (by decide)]
  unfold reportChain6
  rw [getKey_ensureKey_ne _ _ _ _ (by decide)]
  unfold reportChain5
  rw [getKey_ensureKey_ne _ _ _ _ (by decide)]
  exact (chain4_getKey_other fields ex uuid now _ (by decide) (by decide) (by decide)
    (by decide)).trans hv

/-- A missing `urgency_level` is backfilled with the symptom data's
default urgency (`green_home_care` when absent). -/
theorem chain8_urgency_missing (fields : List (Str × Json)) (ex : Extracted)
    (sd : Option SymptomData) (uuid now : Str)
    (hv : lookupStr fields ("urgency_level".data) = none) :
    (reportChain8 fields ex sd uuid now).getKey ("urgency_level".data) =
      some (Json.str (defaultUrgency sd)) := by
  unfold reportChain8
  obtain ⟨f7, hf7⟩ := chain7_obj fields ex uuid now
  rw [hf7]
  apply getKey_ensureKey_missing_obj
  rw [← hf7]
  unfold reportChain7
  rw [getKey_ensureKey_ne _ _ _ _ (by decide)]
  unfold reportChain6
  rw [getKey_ensureKey_ne _ _ _ _ (by decide)]
  unfold reportChain5
  rw [getKey_ensureKey_ne _ _ _ _ (by decide)]
  exact (chain4_getKey_other fields ex uuid now _ (by decide) (by decide) (by decide)
    (by decide)).trans hv

/-- The deterministic fallback report always carries a non-empty
summary, non-empty advice, and the symptom data's default urgency. -/
theorem fallback_report_props (n a g cc : Option Str) (sd : Option SymptomData)
    (u t : Str) :
    keyNonemptyArr (generate_fallback_report n a g cc sd u t) ("summary".data) = true ∧
    keyNonemptyArr (generate_fallback_report n a g cc sd u t) ("advice".data) = true ∧
    (generate_fallback_report n a g cc sd u t).getKey ("urgency_level".data) =
      some (.str (defaultUrgency sd)) :=
  ⟨rfl, rfl, rfl⟩

/-- C1 (amended): on every failure outcome of the external call
(absent API key, transport error, non-200 status, malformed content,
or non-object JSON) `generate_medical_report` surfaces the complete
deterministic fallback report, whose summary and advice are non-empty
and whose urgency level is the symptom data's default
(`green_home_care` when absent); on success with a JSON object, the
`summary`, `advice` and `urgency_level` keys are always present —
backfilled with the non-empty defaults only when the model's object
omits them — but values the model supplies are surfaced unmodified,
so their non-emptiness and enum membership are not guaranteed. -/
theorem c1_report_shape (responses : List QA) (symptom_data : Option SymptomData)
    (apiKey : Option Str) (outcome : LLMCallOutcome) (uuid now : Str) :
    (reportFailureOutcome apiKey outcome →
      generate_medical_report responses symptom_data apiKey outcome uuid now =
        generate_fallback_report (extractFields responses).name
          (extractFields responses).age (extractFields responses).gender
          (extractFields responses).cc symptom_data uuid now ∧
      keyNonemptyArr (generate_medical_report responses symptom_data apiKey outcome
        uuid now) ("summary".data) = true ∧
      keyNonemptyArr (generate_medical_report responses symptom_data apiKey outcome
        uuid now) ("advice".data) = true ∧
      (generate_medical_report responses symptom_data apiKey outcome uuid
        now).getKey ("urgency_level".data) =
        some (.str (defaultUrgency symptom_data))) ∧
    (∀ fields, pyFalsyOptStr apiKey = false →
      outcome = .status 200 (.parsed (.obj fields)) →
      (generate_medical_report responses symptom_data apiKey outcome uuid
        now).hasKey ("summary".data) = true ∧
      (generate_medical_report responses symptom_data apiKey outcome uuid
        now).hasKey ("advice".data) = true ∧
      (generate_medical_report responses symptom_data apiKey outcome uuid
        now).hasKey ("urgency_level".data) = true ∧
      (lookupStr fields ("summary".data) = none →
        (generate_medical_report responses symptom_data apiKey outcome uuid
          now).getKey ("summary".data) = some defaultSummaryJson) ∧
      (∀ v, lookupStr fields ("summary".data) = some v →
        (generate_medical_report responses symptom_data apiKey outcome uuid
          now).getKey ("summary".data) = some v) ∧
      (lookupStr fields ("advice".data) = none →
        (generate_medical_report responses symptom_data apiKey outcome uuid
          now).getKey ("advice".data) = some defaultAdviceJson) ∧
      (∀ v, lookupStr fields ("advice".data) = some v →
        (generate_medical_report responses symptom_data apiKey outcome uuid
          now).getKey ("advice".data) = some v) ∧
      (lookupStr fields ("urgency_level".data) = none →
        (generate_medical_report responses symptom_data apiKey outcome uuid
          now).getKey ("urgency_level".data) =
          some (.str (defaultUrgency symptom_data))) ∧
      (∀ v, lookupStr fields ("urgency_level".data) = some v →
        (generate_medical_report responses symptom_data apiKey outcome uuid
          now).getKey ("urgency_level".data) = some v)) := by
  constructor
  · intro hfail
    have hfb : generate_medical_report responses symptom_data apiKey outcome uuid now =
        generate_fallback_report (extractFields responses).name
          (extractFields responses).age (extractFields responses).gender
          (extractFields responses).cc symptom_data uuid now := by
      rcases hfail with hk | ho | ⟨code, body, ho, hc⟩ | ho | ⟨j, ho, hj⟩
      · simp only [generate_medical_report]
        rw [if_pos hk]
      · subst ho
        simp only [generate_medical_report]
        by_cases hk : pyFalsyOptStr apiKey = true
        · rw [if_pos hk]
        · rw [if_neg hk]
      · subst ho
        simp only [generate_medical_report]
        by_cases hk : pyFalsyOptStr apiKey = true
        · rw [if_pos hk]
        · rw [if_neg hk]
          split
          all_goals first
          | rfl
          | (rename_i h200; exact absurd h200 hc)
      · subst ho
        simp only [generate_medical_report]
        by_cases hk : pyFalsyOptStr apiKey = true
        · rw [if_pos hk]
        · rw [if_neg hk]
          exact ite_self _
      · subst ho
        simp only [generate_medical_report]
        by_cases hk : pyFalsyOptStr apiKey = true
        · rw [if_pos hk]
        · rw [if_neg hk]
          cases j with
          | obj fields => exact absurd rfl (hj fields)
          | null => rfl
          | bool b => rfl
          | num n => rfl
          | str s => rfl
          | arr xs => rfl
    refine ⟨hfb, ?_, ?_, ?_⟩
    · rw [hfb]
      exact (fallback_report_props _ _ _ _ _ _ _).1
    · rw [hfb]
      exact (fallback_report_props _ _ _ _ _ _ _).2.1
    · rw [hfb]
      exact (fallback_report_props _ _ _ _ _ _ _).2.2
  · intro fields hk ho
    subst ho
    rw [generate_success responses symptom_data apiKey fields uuid now hk]
    refine ⟨?_, ?_, ?_, ?_, ?_, ?_, ?_, ?_, ?_⟩
    · unfold Json.hasKey
      rcases hs : lookupStr fields ("summary".data) with _ | v
      · rw [chain8_summary_missing fields _ symptom_data uuid now hs]
        rfl
      · rw [chain8_summary_present fields _ symptom_data uuid now v hs]
        rfl
    · unfold Json.hasKey
      rcases hs : lookupStr fields ("advice".data) with _ | v
      · rw [chain8_advice_missing fields _ symptom_data uuid now hs]
        rfl
      · rw [chain8_advice_present fields _ symptom_data uuid now v hs]
        rfl
    · unfold Json.hasKey
      rcases hs : lookupStr fields ("urgency_level".data) with _ | v
      · rw [chain8_urgency_missing fields _ symptom_data uuid now hs]
        rfl
      · rw [chain8_urgency_present fields _ symptom_data uuid now v hs]
        rfl
    · exact chain8_summary_missing fields _ symptom_data uuid now
    · exact fun v => chain8_summary_present fields _ symptom_data uuid now v
    · exact chain8_advice_missing fields _ symptom_data uuid now
    · exact fun v => chain8_advice_present fields _ symptom_data uuid now v
    · exact chain8_urgency_missing fields _ symptom_data uuid now
    · exact fun v => chain8_urgency_present fields _ symptom_data uuid now v

/-- C1 counterexample: a 200 response whose object carries
`summary: []`, `advice: []` and `urgency_level: "purple"` is surfaced
with those values (empty lists, out-of-enum urgency); and with no API
key a symptom-data default urgency outside the enum flows into the
fallback report, so the claimed enum membership fails there too. -/
theorem c1_report_shape_counterexample :
    keyNonemptyArr cx1SuccessReport ("summary".data) = false ∧
    keyNonemptyArr cx1SuccessReport ("advice".data) = false ∧
    keyUrgencyEnum cx1SuccessReport = false ∧
    keyUrgencyEnum cx1NoKeyReport = false := by
  refine ⟨?_, ?_, ?_, ?_⟩ <;> decide

/-- Witness for the amended C1: with no API key the call returns the
full fallback report. -/
theorem c1_report_shape_witness :
    generate_medical_report [] none none .exn ("uuid-1".data) ("t0".data) =
      generate_fallback_report none none none none none ("uuid-1".data) ("t0".data) :=
  ((c1_report_shape [] none none .exn ("uuid-1".data) ("t0".data)).1 (Or.inl rfl)).1
